import Mathlib

set_option autoImplicit false
set_option maxHeartbeats 2000000

namespace Zint

/-- Error kinds surfaced by the encoder, each carrying the numeric code of the
    errtxt message written at the corresponding failure site in upcean.c. -/
inductive ZErr where
  | tooLong (code : Nat)
  | invalidData (code : Nat)
  | invalidCheck (code : Nat)

deriving instance DecidableEq for ZErr

/-- The symbology variants dispatched by eanx in upcean.c. -/
inductive Symbology where
  | EANX
  | EANX_CHK
  | EANX_CC
  | UPCA
  | UPCA_CHK
  | UPCA_CC
  | UPCE
  | UPCE_CHK
  | UPCE_CC
  | ISBNX

deriving instance DecidableEq for Symbology

/-- The ten decimal digit characters. -/
def digitChars : List Char := ['0', '1', '2', '3', '4', '5', '6', '7', '8', '9']

/-- Modelled from the spec: the helper ctoi of the common module (common.c is
    not under src); on a digit character it returns the digit value. -/
def ctoi (c : Char) : Nat := c.toNat - 48

/-- Modelled from the spec: the helper itoc of the common module; returns the
    character at the given offset from the zero digit. -/
def itoc (n : Nat) : Char := Char.ofNat (n + 48)

/-- The NEON digit character set used for table lookups. -/
def NEON : List Char := digitChars

/-- The SODIUM character set defined at the top of upcean.c: digits plus the
    add-on delimiter. -/
def SODIUM : List Char := digitChars ++ ['+']

/-- Number set for the UPC-E symbol, system 0 (EN Table 4). -/
def UPCParity0 : List (List Char) :=
  [['B','B','B','A','A','A'], ['B','B','A','B','A','A'], ['B','B','A','A','B','A'],
   ['B','B','A','A','A','B'], ['B','A','B','B','A','A'], ['B','A','A','B','B','A'],
   ['B','A','A','A','B','B'], ['B','A','B','A','B','A'], ['B','A','B','A','A','B'],
   ['B','A','A','B','A','B']]

/-- Number set for the UPC-E symbol, system 1. -/
def UPCParity1 : List (List Char) :=
  [['A','A','A','B','B','B'], ['A','A','B','A','B','B'], ['A','A','B','B','A','B'],
   ['A','A','B','B','B','A'], ['A','B','A','A','B','B'], ['A','B','B','A','A','B'],
   ['A','B','B','B','A','A'], ['A','B','A','B','A','B'], ['A','B','A','B','B','A'],
   ['A','B','B','A','B','A']]

/-- Number sets for the 2-digit add-on (EN Table 6). -/
def EAN2Parity : List (List Char) :=
  [['A','A'], ['A','B'], ['B','A'], ['B','B']]

/-- Number set for the 5-digit add-on (EN Table 7). -/
def EAN5Parity : List (List Char) :=
  [['B','B','A','A','A'], ['B','A','B','A','A'], ['B','A','A','B','A'],
   ['B','A','A','A','B'], ['A','B','B','A','A'], ['A','A','B','B','A'],
   ['A','A','A','B','B'], ['A','B','A','B','A'], ['A','B','A','A','B'],
   ['A','A','B','A','B']]

/-- Left hand parity of the EAN-13 symbol (EN Table 3). -/
def EAN13Parity : List (List Char) :=
  [['A','A','A','A','A'], ['A','B','A','B','B'], ['A','B','B','A','B'],
   ['A','B','B','B','A'], ['B','A','A','B','B'], ['B','B','A','A','B'],
   ['B','B','B','A','A'], ['B','A','B','A','B'], ['B','A','B','B','A'],
   ['B','B','A','B','A']]

/-- Representation set A and C (EN Table 1). -/
def EANsetA : List (List Char) :=
  [['3','2','1','1'], ['2','2','2','1'], ['2','1','2','2'], ['1','4','1','1'],
   ['1','1','3','2'], ['1','2','3','1'], ['1','1','1','4'], ['1','3','1','2'],
   ['1','2','1','3'], ['3','1','1','2']]

/-- Representation set B (EN Table 1). -/
def EANsetB : List (List Char) :=
  [['1','1','2','3'], ['1','2','2','2'], ['2','2','1','2'], ['1','1','4','1'],
   ['2','3','1','1'], ['1','3','2','1'], ['4','1','1','1'], ['2','1','3','1'],
   ['3','1','2','1'], ['2','1','1','3']]

/-- Modelled from the spec: the helper lookup of the common module; walks the
    set string and appends the table entry at every index whose set character
    equals the data character. -/
def lookupAux (set : List Char) (table : List (List Char)) (data : Char) (i : Nat)
    (dest : List Char) : List Char :=
  match set with
  | [] => dest
  | c :: rest =>
      lookupAux rest table data (i + 1) (if data = c then dest ++ table.getD i [] else dest)

/-- Modelled from the spec: the helper lookup of the common module. -/
def lookup (set : List Char) (table : List (List Char)) (data : Char)
    (dest : List Char) : List Char :=
  lookupAux set table data 0 dest

/-- Modelled from the spec: the helper is_sane of the common module; true when
    every character of the source lies in the allowed set. -/
def is_sane (allowed : List Char) (source : List Char) : Bool :=
  source.all (fun c => allowed.contains c)

/-- Modelled from the spec: the helper to_upper of the common module. -/
def to_upper (source : List Char) : List Char :=
  source.map (fun c => if 97 ≤ c.toNat ∧ c.toNat ≤ 122 then Char.ofNat (c.toNat - 32) else c)

/-- Calculate the correct check digit for a UPC barcode (upcean.c upc_check):
    weight 3 at even 0-based indices, weight 1 at odd indices. -/
def upc_check (source : List Char) (length : Nat) : Char :=
  let count := (List.range length).foldl
    (fun acc i =>
      acc + (if i % 2 = 1 then ctoi (source.getD i '0') else 3 * ctoi (source.getD i '0'))) 0
  let check_digit := 10 - count % 10
  itoc (if check_digit = 10 then 0 else check_digit)

/-- Calculate the correct check digit for an EAN-13 barcode (upcean.c
    ean_check): weight 1 at even 0-based indices, weight 3 at odd indices. -/
def ean_check (source : List Char) (length : Nat) : Char :=
  let count := (List.range length).foldl
    (fun acc i =>
      acc + (if i % 2 = 1 then 3 * ctoi (source.getD i '0') else ctoi (source.getD i '0'))) 0
  let check_digit := 10 - count % 10
  itoc (if check_digit = 10 then 0 else check_digit)

/-- Check character for ISBN(10) and SBN (upcean.c isbn_check): positional
    weights 1..length, sum taken mod 11, value 10 rendered as X. -/
def isbn_check (source : List Char) (length : Nat) : Char :=
  let sum := (List.range length).foldl
    (fun acc i => acc + ctoi (source.getD i '0') * (i + 1)) 0
  let check := sum % 11
  if check = 10 then 'X' else itoc check

/-- Weighted sum as the spec states it for the UPC form: digit i times 3 when
    i is even, times 1 when i is odd. -/
def upc_sum_spec (s : List Char) : Nat :=
  ((List.range s.length).map
    (fun i => if i % 2 = 0 then 3 * ctoi (s.getD i '0') else ctoi (s.getD i '0'))).sum

/-- Weighted sum as the spec states it for the general EAN-13 form: digit i
    times 1 when i is even, times 3 when i is odd. -/
def ean_sum_spec (s : List Char) : Nat :=
  ((List.range s.length).map
    (fun i => if i % 2 = 0 then ctoi (s.getD i '0') else 3 * ctoi (s.getD i '0'))).sum

/-- Weighted sum as the spec states it for ISBN-10 and SBN: digit i times
    i plus one, for i in 0..8. -/
def isbn_sum_spec (s : List Char) : Nat :=
  ((List.range 9).map (fun i => ctoi (s.getD i '0') * (i + 1))).sum

/-- Result of a linear drawing routine: the accumulated pattern and the
    human readable text written into the symbol. -/
structure Draw where
  dest : List Char
  text : List Char

/-- Pattern assembly shared by UPC-A and EAN-8 (upcean.c upca_draw): start
    guard, set A digits with the centre guard at the half way index, stop
    guard. -/
def upca_draw (source : List Char) (length : Nat) (dest : List Char) : List Char :=
  let half_way := length / 2
  let dest1 := dest ++ ['1', '1', '1']
  let dest2 := (List.range length).foldl
    (fun acc i =>
      lookup NEON EANsetA (source.getD i ' ')
        (if i = half_way then acc ++ ['1', '1', '1', '1', '1'] else acc)) dest1
  dest2 ++ ['1', '1', '1']

/-- upcean.c upca: append the check digit to an 11-digit source, or validate
    the trailing digit of a 12-digit source, then draw. -/
def upca (source : List Char) (dest : List Char) : Except ZErr Draw :=
  if source.length = 11 then
    let gtin := source ++ [upc_check source 11]
    Except.ok { dest := upca_draw gtin 12 dest, text := gtin }
  else
    if source.getD (source.length - 1) ' ' ≠ upc_check source 11 then
      Except.error (ZErr.invalidCheck 270)
    else
      Except.ok { dest := upca_draw source source.length dest, text := source }

/-- upcean.c ean8: append the check digit to a 7-digit source, or validate the
    trailing digit of an 8-digit source, then draw. -/
def ean8 (source : List Char) (dest : List Char) : Except ZErr Draw :=
  if source.length = 7 then
    let gtin := source ++ [upc_check source 7]
    Except.ok { dest := upca_draw gtin 8 dest, text := gtin }
  else
    if source.getD (source.length - 1) ' ' ≠ upc_check source 7 then
      Except.error (ZErr.invalidCheck 276)
    else
      Except.ok { dest := upca_draw source source.length dest, text := source }

/-- Pattern assembly for EAN-13 (the cipher part of upcean.c ean13): parity
    from the leading digit, set B for positions 2..6 whose parity letter is B,
    centre guard before position 7. -/
def ean13_build (gtin : List Char) (length : Nat) (dest : List Char) : List Char :=
  let parity := lookup SODIUM EAN13Parity (gtin.getD 0 ' ') []
  let dest1 := dest ++ ['1', '1', '1']
  let dest2 := (List.range (length - 1)).foldl
    (fun acc j =>
      let i := j + 1
      let acc1 := if i = 7 then acc ++ ['1', '1', '1', '1', '1'] else acc
      if 1 < i ∧ i < 7 ∧ parity.getD (i - 2) ' ' = 'B' then
        lookup NEON EANsetB (gtin.getD i ' ') acc1
      else
        lookup NEON EANsetA (gtin.getD i ' ') acc1) dest1
  dest2 ++ ['1', '1', '1']

/-- upcean.c ean13: append the check digit to a 12-digit source, or validate
    the trailing digit of a 13-digit source, then assemble. -/
def ean13 (source : List Char) (dest : List Char) : Except ZErr Draw :=
  if source.length = 12 then
    let gtin := source ++ [ean_check source 12]
    Except.ok { dest := ean13_build gtin 13 dest, text := gtin }
  else
    if source.getD (source.length - 1) ' ' ≠ ean_check source 12 then
      Except.error (ZErr.invalidCheck 275)
    else
      Except.ok { dest := ean13_build source source.length dest, text := source }

/-- Expansion of a zero-compressed UPC-E source into the 11-digit UPC-A
    equivalent (EN Table 5 switch of upcean.c upce), including the forbidden
    value checks of Notes 1 to 3. -/
def upce_expand (num_system : Nat) (hrt source : List Char) : Except ZErr (List Char) :=
  let emode := source.getD 5 ' '
  let s0 := source.getD 0 ' '
  let s1 := source.getD 1 ' '
  let s2 := source.getD 2 ' '
  let s3 := source.getD 3 ' '
  let s4 := source.getD 4 ' '
  let e0 := if num_system = 1 then hrt.getD 0 ' ' else '0'
  if emode = '0' ∨ emode = '1' ∨ emode = '2' then
    Except.ok [e0, s0, s1, emode, '0', '0', '0', '0', s2, s3, s4]
  else if emode = '3' then
    if s2 = '0' ∨ s2 = '1' ∨ s2 = '2' then Except.error (ZErr.invalidData 271)
    else Except.ok [e0, s0, s1, s2, '0', '0', '0', '0', '0', s3, s4]
  else if emode = '4' then
    if s3 = '0' then Except.error (ZErr.invalidData 272)
    else Except.ok [e0, s0, s1, s2, s3, '0', '0', '0', '0', '0', s4]
  else if emode = '5' ∨ emode = '6' ∨ emode = '7' ∨ emode = '8' ∨ emode = '9' then
    if s4 = '0' then Except.error (ZErr.invalidData 273)
    else Except.ok [e0, s0, s1, s2, s3, s4, '0', '0', '0', '0', emode]
  else
    Except.ok [e0, s0, s1, '0', '0', '0', '0', '0', '0', '0', '0']

/-- Result of upce: the pattern, the human readable text, and the internal
    UPC-A equivalent and number system, exposed for specification. -/
structure UpceOut where
  dest : List Char
  text : List Char
  equivalent : List Char
  num_system : Nat

/-- The part of upcean.c upce after the number system handling: expansion,
    check digit derivation, parity selection, pattern assembly and the check
    digit validation of the explicit check variant. -/
def upce_tail (symbology : Symbology) (num_system : Nat) (hrt source dest : List Char) :
    Except ZErr UpceOut :=
  match upce_expand num_system hrt source with
  | Except.error e => Except.error e
  | Except.ok equivalent =>
    let check_digit := upc_check equivalent 11
    let parity := (if num_system = 1 then UPCParity1 else UPCParity0).getD (ctoi check_digit) []
    let dest1 := dest ++ ['1', '1', '1']
    let dest2 := (List.range source.length).foldl
      (fun acc i =>
        if parity.getD i ' ' = 'A' then lookup NEON EANsetA (source.getD i ' ') acc
        else if parity.getD i ' ' = 'B' then lookup NEON EANsetB (source.getD i ' ') acc
        else acc) dest1
    let dest3 := dest2 ++ ['1', '1', '1', '1', '1', '1']
    if symbology ≠ Symbology.UPCE_CHK then
      Except.ok { dest := dest3, text := hrt ++ [check_digit],
                  equivalent := equivalent, num_system := num_system }
    else
      if hrt.getD 7 ' ' ≠ check_digit then Except.error (ZErr.invalidCheck 274)
      else
        Except.ok { dest := dest3, text := hrt,
                    equivalent := equivalent, num_system := num_system }

/-- upcean.c upce: number system handling, zero-compression expansion, check
    digit derivation, parity selection and pattern assembly. -/
def upce (symbology : Symbology) (source0 : List Char) (dest : List Char) :
    Except ZErr UpceOut :=
  let step :=
    if (symbology ≠ Symbology.UPCE_CHK ∧ source0.length = 7) ∨ source0.length = 8 then
      ((if source0.getD 0 ' ' = '0' then 0
        else if source0.getD 0 ' ' = '1' then 1 else 0),
       source0, source0.drop 1)
    else (0, '0' :: source0, source0)
  upce_tail symbology step.1 step.2.1 step.2.2 dest

/-- The forbidden digit combinations of EN Table 5 Notes 1 to 3, read off a
    six digit zero-compressed code. -/
def upceForbidden (d2 d3 d4 d5 : Char) : Prop :=
  (d5 = '3' ∧ (d2 = '0' ∨ d2 = '1' ∨ d2 = '2')) ∨
  (d5 = '4' ∧ d3 = '0') ∨
  ((d5 = '5' ∨ d5 = '6' ∨ d5 = '7' ∨ d5 = '8' ∨ d5 = '9') ∧ d4 = '0')

instance (d2 d3 d4 d5 : Char) : Decidable (upceForbidden d2 d3 d4 d5) := by
  unfold upceForbidden
  infer_instance

/-- The 11-digit UPC-A equivalent that the expansion of a six digit
    zero-compressed code derives under number system 0, read out of
    upce_expand; the empty list on the forbidden combinations. -/
def upce_equivalent_of (code : List Char) : List Char :=
  match upce_expand 0 ('0' :: code) code with
  | Except.ok e => e
  | Except.error _ => []

/-- upcean.c add_on: EAN-2 and EAN-5 add-on codes, with the optional leading
    gap character, the add-on start guard, parity driven digit encoding and
    the two-module glyph separators. -/
def add_on (source : List Char) (length : Nat) (dest : List Char) (addon_gap : Nat) :
    List Char :=
  let dest0 := if addon_gap ≠ 0 then dest ++ [itoc addon_gap] else dest
  let dest1 := dest0 ++ ['1', '1', '2']
  let parity : List Char :=
    if length = 2 then
      EAN2Parity.getD ((10 * ctoi (source.getD 0 ' ') + ctoi (source.getD 1 ' ')) % 4) []
    else
      EAN5Parity.getD
        ((3 * (ctoi (source.getD 0 ' ') + ctoi (source.getD 2 ' ') + ctoi (source.getD 4 ' ')) +
          9 * (ctoi (source.getD 1 ' ') + ctoi (source.getD 3 ' '))) % 10) []
  (List.range length).foldl
    (fun acc i =>
      let acc1 :=
        if parity.getD i ' ' = 'A' then lookup NEON EANsetA (source.getD i ' ') acc
        else if parity.getD i ' ' = 'B' then lookup NEON EANsetB (source.getD i ' ') acc
        else acc
      if i ≠ length - 1 then acc1 ++ ['1', '1'] else acc1) dest1

/-- upcean.c isbn: make an EAN-13 from an SBN or ISBN; uppercases, validates
    characters and length, checks the ISBN-13 prefix and check digit or the
    ISBN-10/SBN check character, converts to the 12-digit EAN-13 source. -/
def isbn (source0 : List Char) (dest : List Char) : Except ZErr Draw :=
  let source1 := to_upper source0
  let src_len := source1.length
  if ¬ is_sane (digitChars ++ ['X']) source1 then Except.error (ZErr.invalidData 277)
  else if src_len ≠ 9 ∧ src_len ≠ 10 ∧ src_len ≠ 13 then Except.error (ZErr.tooLong 278)
  else if src_len = 13 then
    if ¬ (source1.getD 0 ' ' = '9' ∧ source1.getD 1 ' ' = '7' ∧
          (source1.getD 2 ' ' = '8' ∨ source1.getD 2 ' ' = '9')) then
      Except.error (ZErr.invalidData 279)
    else if source1.getD 12 ' ' ≠ ean_check source1 12 then
      Except.error (ZErr.invalidCheck 280)
    else ean13 (source1.take 12) dest
  else
    let source2 := if src_len = 9 then '0' :: source1 else source1
    if isbn_check source2 9 ≠ source2.getD 9 ' ' then Except.error (ZErr.invalidCheck 281)
    else ean13 (['9', '7', '8'] ++ source2.take 9) dest

/-- The counting loop of upcean.c ean_leading_zeroes: number of characters
    before the first add-on delimiter, number of non delimiter characters after
    it, and whether a delimiter was seen. -/
def elz_counts (source : List Char) : Nat × Nat × Bool :=
  source.foldl
    (fun acc c =>
      if c = '+' then (acc.1, acc.2.1, true)
      else if acc.2.2 then (acc.1, acc.2.1 + 1, true)
      else (acc.1 + 1, acc.2.1, false)) (0, 0, false)

/-- upcean.c ean_leading_zeroes: split the input at the add-on delimiter,
    refuse overlong parts, zero-pad each part to its canonical length for the
    symbology and rejoin; none models the zero return consumed as a length
    error by eanx. -/
def ean_leading_zeroes (symbology : Symbology) (source : List Char) :
    Option (List Char × Bool) :=
  let counts := elz_counts source
  let first_len := counts.1
  let second_len := counts.2.1
  let with_addon := counts.2.2
  if first_len > 13 ∨ second_len > 5 then none
  else
    let first_part := source.take first_len
    let second_part := (source.drop (first_len + 1)).take second_len
    let zsecond_len :=
      if second_len = 0 then 0
      else if second_len ≤ 5 then (if second_len ≤ 2 then 2 else 5) else 0
    let zfirst_len :=
      match symbology with
      | Symbology.EANX | Symbology.EANX_CC =>
        let z1 := if first_len ≤ 12 then (if first_len ≤ 7 then 7 else 12) else 0
        if second_len = 0 ∧ symbology = Symbology.EANX then
          (if first_len ≤ 5 then (if first_len ≤ 2 then 2 else 5) else z1)
        else z1
      | Symbology.EANX_CHK =>
        let z1 := if first_len ≤ 13 then (if first_len ≤ 8 then 8 else 13) else 0
        if second_len = 0 then
          (if first_len ≤ 5 then (if first_len ≤ 2 then 2 else 5) else z1)
        else z1
      | Symbology.UPCA | Symbology.UPCA_CC => 11
      | Symbology.UPCA_CHK => 12
      | Symbology.UPCE | Symbology.UPCE_CC =>
        if first_len = 7 then 7 else if first_len ≤ 6 then 6 else 0
      | Symbology.UPCE_CHK =>
        if first_len = 8 then 8 else if first_len ≤ 7 then 7 else 0
      | Symbology.ISBNX => if first_len ≤ 9 then 9 else 0
    let zfirst_part := List.replicate (zfirst_len - first_len) '0' ++ first_part
    let zsecond_part := List.replicate (zsecond_len - second_len) '0' ++ second_part
    let local_source :=
      zfirst_part ++ (if zsecond_part ≠ [] then '+' :: zsecond_part else [])
    some (local_source, with_addon)

/-- The state of a zint symbol as far as the eanx pipeline touches it: the
    requested symbology and gap override on input, and the row count, width,
    row heights, module bitmap and human readable text on output. -/
structure ZSymbol where
  symbology : Symbology
  option_2 : Int
  rows : Nat
  width : Nat
  row_height : Nat → Nat
  modules : Nat → Nat → Bool
  text : List Char

/-- A fresh symbol as handed to eanx by the library: no rows, no modules. -/
def initSymbol (symbology : Symbology) (option_2 : Int) : ZSymbol :=
  { symbology := symbology, option_2 := option_2, rows := 0, width := 0,
    row_height := fun _ => 0, modules := fun _ _ => false, text := [] }

/-- Modelled from the spec: the set_module bitmap primitive of the common
    module (outside src); marks one module of one row. -/
def set_module (s : ZSymbol) (r c : Nat) : ZSymbol :=
  { s with modules := fun r2 c2 => if r2 = r ∧ c2 = c then true else s.modules r2 c2 }

/-- Modelled from the spec: the unset_module bitmap primitive of the common
    module; clears one module of one row. -/
def unset_module (s : ZSymbol) (r c : Nat) : ZSymbol :=
  { s with modules := fun r2 c2 => if r2 = r ∧ c2 = c then false else s.modules r2 c2 }

/-- Modelled from the spec: the module_is_set query of the common module. -/
def module_is_set (s : ZSymbol) (r c : Nat) : Bool := s.modules r c

/-- Writing one entry of the row height metadata. -/
def set_row_height (s : ZSymbol) (r h : Nat) : ZSymbol :=
  { s with row_height := fun r2 => if r2 = r then h else s.row_height r2 }

/-- Modelled from the spec: one row of the rasterized width pattern; each
    pattern character is a run length, runs alternate bar and space starting
    with a bar, and positions beyond the final run are clear. -/
def rasterRow : List Char → Bool → Nat → Bool
  | [], _, _ => false
  | c :: rest, bar, p => if p < ctoi c then bar else rasterRow rest (!bar) (p - ctoi c)

/-- Total module count of a width pattern. -/
def moduleCount (data : List Char) : Nat := (data.map ctoi).sum

/-- Modelled from the spec: the expand rasterizer of the common module
    (outside src); draws the width pattern into the current row, grows the
    width to the module count when larger, and advances the row counter. -/
def expand (s : ZSymbol) (data : List Char) : ZSymbol :=
  { s with
    modules := fun r c =>
      if r = s.rows then (s.modules r c || rasterRow data true c) else s.modules r c,
    width := if moduleCount data > s.width then moduleCount data else s.width,
    rows := s.rows + 1 }

/-- One step of the composite shift loop of eanx: copy the module one column
    to the left into column i. -/
def shiftStep (m : Nat → Bool) (i : Nat) : Nat → Bool :=
  fun c => if c = i then m (i - 1) else m c

/-- The composite shift loop of eanx, running the index from its first
    argument down to 1. -/
def shiftLoop (m : Nat → Bool) : Nat → (Nat → Bool)
  | 0 => m
  | Nat.succ k => shiftLoop (shiftStep m (k + 1)) k

/-- The composite adjustment at the end of eanx: shift the last row one column
    to the right, clear column 0 and widen the symbol by two. -/
def cc_shift (s : ZSymbol) : ZSymbol :=
  let row := s.rows - 1
  let newRow := fun c =>
    if c = 0 then false else shiftLoop (fun c2 => s.modules row c2) (s.width + 1) c
  { s with
    modules := fun r c => if r = row then newRow c else s.modules r c,
    width := s.width + 2 }

/-- The do-while splitting loop of eanx: walk the padded source, restart the
    second buffer after each delimiter, truncating the first buffer at the
    current write position as the in-place null write does. -/
def split_loop : List Char → List Char → List Char → Bool → List Char × List Char
  | [], first, second, _ => (first, second)
  | c :: rest, first, second, latch =>
    if c = '+' then
      split_loop rest (if latch then first.take second.length else first) [] true
    else if latch then split_loop rest first (second ++ [c]) true
    else split_loop rest (first ++ [c]) second latch

/-- upcean.c eanx: the entry point; length ceiling, character set validation,
    zero padding, splitting, add-on gap selection, symbology dispatch, add-on
    assembly, rasterization and the composite shift.  The returned pair is the
    final symbol state and the assembled width pattern. -/
def eanx (symbol0 : ZSymbol) (source : List Char) : Except ZErr (ZSymbol × List Char) :=
  if source.length > 19 then Except.error (ZErr.tooLong 283)
  else if symbol0.symbology ≠ Symbology.ISBNX ∧ ¬ is_sane SODIUM source then
    Except.error (ZErr.invalidData 284)
  else if symbol0.symbology = Symbology.ISBNX ∧
      ¬ is_sane (digitChars ++ ['X', 'x', '+']) source then
    Except.error (ZErr.invalidData 285)
  else
    match ean_leading_zeroes symbol0.symbology source with
    | none => Except.error (ZErr.tooLong 294)
    | some (local_source, with_addon) =>
      let parts := if with_addon then split_loop local_source [] [] false else (local_source, [])
      let first_part := parts.1
      let second_part := parts.2
      let addon_gap : Nat :=
        if with_addon then
          if symbol0.symbology = Symbology.UPCA ∨ symbol0.symbology = Symbology.UPCA_CHK ∨
              symbol0.symbology = Symbology.UPCA_CC then
            if 9 ≤ symbol0.option_2 ∧ symbol0.option_2 ≤ 12 then symbol0.option_2.toNat else 9
          else
            if 7 ≤ symbol0.option_2 ∧ symbol0.option_2 ≤ 12 then symbol0.option_2.toNat else 7
        else 0
      let first_part_len := first_part.length
      let primary : Except ZErr (ZSymbol × List Char) :=
        match symbol0.symbology with
        | Symbology.EANX | Symbology.EANX_CHK =>
          if first_part_len = 2 ∨ first_part_len = 5 then
            Except.ok ({ symbol0 with text := first_part },
                       add_on first_part first_part_len [] 0)
          else if first_part_len = 7 ∨ first_part_len = 8 then
            match ean8 first_part [] with
            | Except.error e => Except.error e
            | Except.ok d => Except.ok ({ symbol0 with text := d.text }, d.dest)
          else if first_part_len = 12 ∨ first_part_len = 13 then
            match ean13 first_part [] with
            | Except.error e => Except.error e
            | Except.ok d => Except.ok ({ symbol0 with text := d.text }, d.dest)
          else Except.error (ZErr.tooLong 286)
        | Symbology.EANX_CC =>
          if first_part_len = 7 then
            let s1 := set_module symbol0 symbol0.rows 1
            let s2 := set_module s1 symbol0.rows 67
            let s3 := set_module s2 (symbol0.rows + 1) 0
            let s4 := set_module s3 (symbol0.rows + 1) 68
            let s5 := set_module s4 (symbol0.rows + 2) 1
            let s6 := set_module s5 (symbol0.rows + 2) 67
            let s7 := set_row_height s6 symbol0.rows 2
            let s8 := set_row_height s7 (symbol0.rows + 1) 2
            let s9 := set_row_height s8 (symbol0.rows + 2) 2
            let s10 := { s9 with rows := s9.rows + 3 }
            match ean8 first_part [] with
            | Except.error e => Except.error e
            | Except.ok d => Except.ok ({ s10 with text := d.text }, d.dest)
          else if first_part_len = 12 ∨ first_part_len = 13 then
            let s1 := set_module symbol0 symbol0.rows 1
            let s2 := set_module s1 symbol0.rows 95
            let s3 := set_module s2 (symbol0.rows + 1) 0
            let s4 := set_module s3 (symbol0.rows + 1) 96
            let s5 := set_module s4 (symbol0.rows + 2) 1
            let s6 := set_module s5 (symbol0.rows + 2) 95
            let s7 := set_row_height s6 symbol0.rows 2
            let s8 := set_row_height s7 (symbol0.rows + 1) 2
            let s9 := set_row_height s8 (symbol0.rows + 2) 2
            let s10 := { s9 with rows := s9.rows + 3 }
            match ean13 first_part [] with
            | Except.error e => Except.error e
            | Except.ok d => Except.ok ({ s10 with text := d.text }, d.dest)
          else Except.error (ZErr.tooLong 287)
        | Symbology.UPCA | Symbology.UPCA_CHK =>
          if first_part_len = 11 ∨ first_part_len = 12 then
            match upca first_part [] with
            | Except.error e => Except.error e
            | Except.ok d => Except.ok ({ symbol0 with text := d.text }, d.dest)
          else Except.error (ZErr.tooLong 288)
        | Symbology.UPCA_CC =>
          if first_part_len = 11 ∨ first_part_len = 12 then
            let s1 := set_module symbol0 symbol0.rows 1
            let s2 := set_module s1 symbol0.rows 95
            let s3 := set_module s2 (symbol0.rows + 1) 0
            let s4 := set_module s3 (symbol0.rows + 1) 96
            let s5 := set_module s4 (symbol0.rows + 2) 1
            let s6 := set_module s5 (symbol0.rows + 2) 95
            let s7 := set_row_height s6 symbol0.rows 2
            let s8 := set_row_height s7 (symbol0.rows + 1) 2
            let s9 := set_row_height s8 (symbol0.rows + 2) 2
            let s10 := { s9 with rows := s9.rows + 3 }
            match upca first_part [] with
            | Except.error e => Except.error e
            | Except.ok d => Except.ok ({ s10 with text := d.text }, d.dest)
          else Except.error (ZErr.tooLong 289)
        | Symbology.UPCE | Symbology.UPCE_CHK =>
          if 6 ≤ first_part_len ∧
              first_part_len ≤ (if symbol0.symbology = Symbology.UPCE then 7 else 8) then
            match upce symbol0.symbology first_part [] with
            | Except.error e => Except.error e
            | Except.ok u => Except.ok ({ symbol0 with text := u.text }, u.dest)
          else Except.error (ZErr.tooLong 290)
        | Symbology.UPCE_CC =>
          if 6 ≤ first_part_len ∧ first_part_len ≤ 7 then
            let s1 := set_module symbol0 symbol0.rows 1
            let s2 := set_module s1 symbol0.rows 51
            let s3 := set_module s2 (symbol0.rows + 1) 0
            let s4 := set_module s3 (symbol0.rows + 1) 52
            let s5 := set_module s4 (symbol0.rows + 2) 1
            let s6 := set_module s5 (symbol0.rows + 2) 51
            let s7 := set_row_height s6 symbol0.rows 2
            let s8 := set_row_height s7 (symbol0.rows + 1) 2
            let s9 := set_row_height s8 (symbol0.rows + 2) 2
            let s10 := { s9 with rows := s9.rows + 3 }
            match upce Symbology.UPCE_CC first_part [] with
            | Except.error e => Except.error e
            | Except.ok u => Except.ok ({ s10 with text := u.text }, u.dest)
          else Except.error (ZErr.tooLong 291)
        | Symbology.ISBNX =>
          match isbn first_part [] with
          | Except.error e => Except.error e
          | Except.ok d => Except.ok ({ symbol0 with text := d.text }, d.dest)
      match primary with
      | Except.error e => Except.error e
      | Except.ok (s1, dest1) =>
        let second_part_len := second_part.length
        let step2 : Except ZErr (ZSymbol × List Char) :=
          if second_part_len = 0 then Except.ok (s1, dest1)
          else if second_part_len = 2 ∨ second_part_len = 5 then
            Except.ok ({ s1 with text := s1.text ++ '+' :: second_part },
                       add_on second_part second_part_len dest1 addon_gap)
          else Except.error (ZErr.tooLong 292)
        match step2 with
        | Except.error e => Except.error e
        | Except.ok (s2, dest2) =>
          let s3 := expand s2 dest2
          let s4 :=
            if s3.symbology = Symbology.EANX_CC ∨ s3.symbology = Symbology.UPCA_CC ∨
                s3.symbology = Symbology.UPCE_CC then
              cc_shift s3
            else s3
          Except.ok (s4, dest2)

/-- The symbol state eanx produces on success, the input state on failure;
    a projection used to state facts about the composite geometry. -/
def eanxSymbol (s0 : ZSymbol) (source : List Char) : ZSymbol :=
  match eanx s0 source with
  | Except.ok p => p.1
  | Except.error _ => s0

set_option maxRecDepth 8000

lemma foldl_add_g (g : Nat → Nat) (l : List Nat) (a : Nat) :
    l.foldl (fun acc i => acc + g i) a = a + (l.map g).sum := by
  induction l generalizing a with
  | nil => simp
  | cons x t ih => simp [List.foldl_cons, ih, Nat.add_assoc]

lemma foldl_add_g0 (g : Nat → Nat) (l : List Nat) :
    l.foldl (fun acc i => acc + g i) 0 = (l.map g).sum := by
  simp [foldl_add_g]

/-- Claim C1: on digit strings of the fixed lengths 7, 11 and 12, upc_check
    returns the digit character of (10 minus (sum mod 10)) mod 10 with weight 3
    at even 0-based indices and weight 1 at odd indices, while ean_check uses
    the flipped convention (weight 1 at even indices, weight 3 at odd indices);
    a raw value of 10 becomes check digit 0 in both. -/
theorem claim1_check_digit_formulas (s : List Char)
    (hd : ∀ c ∈ s, c ∈ digitChars)
    (hl : s.length = 7 ∨ s.length = 11 ∨ s.length = 12) :
    upc_check s s.length = itoc ((10 - upc_sum_spec s % 10) % 10) ∧
    ean_check s s.length = itoc ((10 - ean_sum_spec s % 10) % 10) := by
  constructor
  · unfold upc_check upc_sum_spec
    rw [foldl_add_g0 (fun i => if i % 2 = 1 then ctoi (s.getD i '0') else 3 * ctoi (s.getD i '0'))]
    have hmap : (List.range s.length).map
        (fun i => if i % 2 = 1 then ctoi (s.getD i '0') else 3 * ctoi (s.getD i '0')) =
        (List.range s.length).map
        (fun i => if i % 2 = 0 then 3 * ctoi (s.getD i '0') else ctoi (s.getD i '0')) := by
      apply List.map_congr_left
      intro i _
      by_cases h : i % 2 = 0
      · have h1 : ¬ i % 2 = 1 := by omega
        simp [h, h1]
      · have h1 : i % 2 = 1 := by omega
        simp [h, h1]
    rw [hmap]
    set S := ((List.range s.length).map
        (fun i => if i % 2 = 0 then 3 * ctoi (s.getD i '0') else ctoi (s.getD i '0'))).sum with hS
    show itoc (if 10 - S % 10 = 10 then 0 else 10 - S % 10) = itoc ((10 - S % 10) % 10)
    have hlt : S % 10 < 10 := Nat.mod_lt _ (by omega)
    exact congrArg itoc (by split_ifs with h <;> omega)
  · unfold ean_check ean_sum_spec
    rw [foldl_add_g0 (fun i => if i % 2 = 1 then 3 * ctoi (s.getD i '0') else ctoi (s.getD i '0'))]
    have hmap : (List.range s.length).map
        (fun i => if i % 2 = 1 then 3 * ctoi (s.getD i '0') else ctoi (s.getD i '0')) =
        (List.range s.length).map
        (fun i => if i % 2 = 0 then ctoi (s.getD i '0') else 3 * ctoi (s.getD i '0')) := by
      apply List.map_congr_left
      intro i _
      by_cases h : i % 2 = 0
      · have h1 : ¬ i % 2 = 1 := by omega
        simp [h, h1]
      · have h1 : i % 2 = 1 := by omega
        simp [h, h1]
    rw [hmap]
    set S := ((List.range s.length).map
        (fun i => if i % 2 = 0 then ctoi (s.getD i '0') else 3 * ctoi (s.getD i '0'))).sum with hS
    show itoc (if 10 - S % 10 = 10 then 0 else 10 - S % 10) = itoc ((10 - S % 10) % 10)
    have hlt : S % 10 < 10 := Nat.mod_lt _ (by omega)
    exact congrArg itoc (by split_ifs with h <;> omega)

theorem claim1_check_digit_formulas_witness :
    upc_check ['0','3','6','0','0','0','2','9','1','4','5'] 11 =
      itoc ((10 - upc_sum_spec ['0','3','6','0','0','0','2','9','1','4','5'] % 10) % 10) ∧
    ean_check ['0','3','6','0','0','0','2','9','1','4','5'] 11 =
      itoc ((10 - ean_sum_spec ['0','3','6','0','0','0','2','9','1','4','5'] % 10) % 10) :=
  claim1_check_digit_formulas ['0','3','6','0','0','0','2','9','1','4','5']
    (by decide) (by decide)

/-- Claim C6: on every 9-digit input the ISBN-10/SBN check-character function
    returns the character of the sum of digit i times (i plus one) taken mod 11,
    rendered as the decimal digit for 0..9 and as X for 10. -/
theorem claim6_isbn_check_formula (s : List Char)
    (hd : ∀ c ∈ s, c ∈ digitChars) (hl : s.length = 9) :
    isbn_check s 9 =
      (if isbn_sum_spec s % 11 = 10 then 'X' else itoc (isbn_sum_spec s % 11)) := by
  unfold isbn_check isbn_sum_spec
  rw [foldl_add_g (fun i => ctoi (s.getD i '0') * (i + 1))]
  simp

theorem claim6_isbn_check_formula_witness :
    isbn_check ['0','1','9','5','0','1','1','0','9'] 9 =
      (if isbn_sum_spec ['0','1','9','5','0','1','1','0','9'] % 11 = 10 then 'X'
       else itoc (isbn_sum_spec ['0','1','9','5','0','1','1','0','9'] % 11)) :=
  claim6_isbn_check_formula ['0','1','9','5','0','1','1','0','9'] (by decide) (by decide)

lemma digit_cases {c : Char} (hc : c ∈ digitChars) :
    c = '0' ∨ c = '1' ∨ c = '2' ∨ c = '3' ∨ c = '4' ∨ c = '5' ∨ c = '6' ∨ c = '7' ∨
    c = '8' ∨ c = '9' := by
  simpa [digitChars] using hc

lemma lookup_digit (table : List (List Char)) {c : Char} (hc : c ∈ digitChars)
    (acc : List Char) :
    lookup NEON table c acc = acc ++ table.getD (ctoi c) [] := by
  rcases digit_cases hc with rfl | rfl | rfl | rfl | rfl | rfl | rfl | rfl | rfl | rfl <;> rfl

/-- Claim C2: on a six digit zero-compressed UPC-E code, expansion fails with
    an InvalidData error, producing no symbol, exactly in the forbidden cases
    of the standard: the emode digit 3 with the third digit in 0..2, emode 4
    with the fourth digit 0, and emode 5..9 with the fifth digit 0; every
    other six digit code succeeds. -/
theorem claim2_upce_forbidden (d0 d1 d2 d3 d4 d5 : Char)
    (h0 : d0 ∈ digitChars) (h1 : d1 ∈ digitChars) (h2 : d2 ∈ digitChars)
    (h3 : d3 ∈ digitChars) (h4 : d4 ∈ digitChars) (h5 : d5 ∈ digitChars) :
    (d5 = '3' ∧ (d2 = '0' ∨ d2 = '1' ∨ d2 = '2') →
      upce Symbology.UPCE [d0, d1, d2, d3, d4, d5] [] =
        Except.error (ZErr.invalidData 271)) ∧
    (d5 = '4' ∧ d3 = '0' →
      upce Symbology.UPCE [d0, d1, d2, d3, d4, d5] [] =
        Except.error (ZErr.invalidData 272)) ∧
    ((d5 = '5' ∨ d5 = '6' ∨ d5 = '7' ∨ d5 = '8' ∨ d5 = '9') ∧ d4 = '0' →
      upce Symbology.UPCE [d0, d1, d2, d3, d4, d5] [] =
        Except.error (ZErr.invalidData 273)) ∧
    (¬ upceForbidden d2 d3 d4 d5 →
      ∃ r, upce Symbology.UPCE [d0, d1, d2, d3, d4, d5] [] = Except.ok r) := by
  refine ⟨?_, ?_, ?_, ?_⟩
  · rintro ⟨rfl, rfl | rfl | rfl⟩ <;> rfl
  · rintro ⟨rfl, rfl⟩
    rfl
  · rintro ⟨h, rfl⟩
    rcases h with rfl | rfl | rfl | rfl | rfl <;> rfl
  · intro hn
    rcases digit_cases h5 with rfl | rfl | rfl | rfl | rfl | rfl | rfl | rfl | rfl | rfl
    · exact ⟨_, rfl⟩
    · exact ⟨_, rfl⟩
    · exact ⟨_, rfl⟩
    · rcases digit_cases h2 with rfl | rfl | rfl | rfl | rfl | rfl | rfl | rfl | rfl | rfl
      · exact absurd (Or.inl ⟨rfl, Or.inl rfl⟩) hn
      · exact absurd (Or.inl ⟨rfl, Or.inr (Or.inl rfl)⟩) hn
      · exact absurd (Or.inl ⟨rfl, Or.inr (Or.inr rfl)⟩) hn
      all_goals exact ⟨_, rfl⟩
    · rcases digit_cases h3 with rfl | rfl | rfl | rfl | rfl | rfl | rfl | rfl | rfl | rfl
      · exact absurd (Or.inr (Or.inl ⟨rfl, rfl⟩)) hn
      all_goals exact ⟨_, rfl⟩
    · rcases digit_cases h4 with rfl | rfl | rfl | rfl | rfl | rfl | rfl | rfl | rfl | rfl
      · exact absurd (Or.inr (Or.inr ⟨Or.inl rfl, rfl⟩)) hn
      all_goals exact ⟨_, rfl⟩
    · rcases digit_cases h4 with rfl | rfl | rfl | rfl | rfl | rfl | rfl | rfl | rfl | rfl
      · exact absurd (Or.inr (Or.inr ⟨Or.inr (Or.inl rfl), rfl⟩)) hn
      all_goals exact ⟨_, rfl⟩
    · rcases digit_cases h4 with rfl | rfl | rfl | rfl | rfl | rfl | rfl | rfl | rfl | rfl
      · exact absurd (Or.inr (Or.inr ⟨Or.inr (Or.inr (Or.inl rfl)), rfl⟩)) hn
      all_goals exact ⟨_, rfl⟩
    · rcases digit_cases h4 with rfl | rfl | rfl | rfl | rfl | rfl | rfl | rfl | rfl | rfl
      · exact absurd (Or.inr (Or.inr ⟨Or.inr (Or.inr (Or.inr (Or.inl rfl))), rfl⟩)) hn
      all_goals exact ⟨_, rfl⟩
    · rcases digit_cases h4 with rfl | rfl | rfl | rfl | rfl | rfl | rfl | rfl | rfl | rfl
      · exact absurd (Or.inr (Or.inr ⟨Or.inr (Or.inr (Or.inr (Or.inr rfl))), rfl⟩)) hn
      all_goals exact ⟨_, rfl⟩

theorem claim2_upce_forbidden_witness :
    (upce Symbology.UPCE ['1', '2', '0', '0', '3', '3'] [] =
      Except.error (ZErr.invalidData 271)) ∧
    (∃ r, upce Symbology.UPCE ['1', '2', '3', '4', '5', '0'] [] = Except.ok r) :=
  ⟨(claim2_upce_forbidden '1' '2' '0' '0' '3' '3' (by decide) (by decide) (by decide)
      (by decide) (by decide) (by decide)).1 (by decide),
   (claim2_upce_forbidden '1' '2' '3' '4' '5' '0' (by decide) (by decide) (by decide)
      (by decide) (by decide) (by decide)).2.2.2 (by decide)⟩

/-- Claim C3: for a six digit zero-compressed UPC-E code with emode in 0..2
    the 11-digit UPC-A equivalent places a leading system digit (0 unless the
    separately supplied leading digit selects number system 1), then the first
    two digits, the emode digit, four zeroes and the remaining three digits. -/
theorem claim3_upce_expansion (d0 d1 d2 d3 d4 d5 : Char)
    (h0 : d0 ∈ digitChars) (h1 : d1 ∈ digitChars) (h2 : d2 ∈ digitChars)
    (h3 : d3 ∈ digitChars) (h4 : d4 ∈ digitChars) (h5 : d5 ∈ digitChars)
    (hm : d5 = '0' ∨ d5 = '1' ∨ d5 = '2') :
    (∃ r, upce Symbology.UPCE [d0, d1, d2, d3, d4, d5] [] = Except.ok r ∧
      r.equivalent = ['0', d0, d1, d5, '0', '0', '0', '0', d2, d3, d4] ∧
      r.num_system = 0) ∧
    (∀ lead, lead ∈ digitChars →
      ∃ r, upce Symbology.UPCE (lead :: [d0, d1, d2, d3, d4, d5]) [] = Except.ok r ∧
        r.equivalent =
          (if lead = '1' then lead else '0') ::
            [d0, d1, d5, '0', '0', '0', '0', d2, d3, d4] ∧
        r.num_system = (if lead = '1' then 1 else 0)) := by
  constructor
  · rcases hm with rfl | rfl | rfl <;> exact ⟨_, rfl, rfl, rfl⟩
  · intro lead hlead
    rcases digit_cases hlead with rfl | rfl | rfl | rfl | rfl | rfl | rfl | rfl | rfl | rfl <;>
      rcases hm with rfl | rfl | rfl <;> exact ⟨_, rfl, rfl, rfl⟩

theorem claim3_upce_expansion_witness :
    ∃ r, upce Symbology.UPCE ['1', '2', '3', '4', '5', '0'] [] = Except.ok r ∧
      r.equivalent = ['0', '1', '2', '0', '0', '0', '0', '0', '3', '4', '5'] ∧
      r.num_system = 0 :=
  (claim3_upce_expansion '1' '2' '3' '4' '5' '0' (by decide) (by decide) (by decide)
    (by decide) (by decide) (by decide) (by decide)).1

/-- Claim C10 counterexample: the 7-character input 9012033 to the plain
    UPC-E variant has first character 9, a digit other than 0 and 1, yet
    encoding fails: the remaining six digits 012033 hit the forbidden emode 3
    combination, refuting the claim that such inputs never fail. -/
theorem claim10_counterexample :
    upce Symbology.UPCE ['9', '0', '1', '2', '0', '3', '3'] [] =
      Except.error (ZErr.invalidData 271) := rfl

/-- Claim C10 (amended): a 7-character UPC-E input to the non explicit check
    digit variant whose first character is a digit other than 0 and 1, and
    whose remaining six digits avoid the forbidden emode combinations, does
    not fail: number system 0 is used, the first character is ignored for
    expansion and parity selection (equivalent and pattern agree with the
    six digit run), yet the text still begins with the original first
    character, followed by the six digits and the computed check digit. -/
lemma upce_expand_ok_of_not_forbidden (hrt : List Char) (d0 d1 d2 d3 d4 d5 : Char)
    (h5 : d5 ∈ digitChars) (hnf : ¬ upceForbidden d2 d3 d4 d5) :
    ∃ e, upce_expand 0 hrt [d0, d1, d2, d3, d4, d5] = Except.ok e := by
  rcases digit_cases h5 with rfl | rfl | rfl | rfl | rfl | rfl | rfl | rfl | rfl | rfl
  · exact ⟨_, rfl⟩
  · exact ⟨_, rfl⟩
  · exact ⟨_, rfl⟩
  · refine ⟨['0', d0, d1, d2, '0', '0', '0', '0', '0', d3, d4], ?_⟩
    show (if d2 = '0' ∨ d2 = '1' ∨ d2 = '2' then Except.error (ZErr.invalidData 271)
          else Except.ok ['0', d0, d1, d2, '0', '0', '0', '0', '0', d3, d4]) =
      Except.ok ['0', d0, d1, d2, '0', '0', '0', '0', '0', d3, d4]
    exact if_neg (fun h => hnf (Or.inl ⟨rfl, h⟩))
  · refine ⟨['0', d0, d1, d2, d3, '0', '0', '0', '0', '0', d4], ?_⟩
    show (if d3 = '0' then Except.error (ZErr.invalidData 272)
          else Except.ok ['0', d0, d1, d2, d3, '0', '0', '0', '0', '0', d4]) =
      Except.ok ['0', d0, d1, d2, d3, '0', '0', '0', '0', '0', d4]
    exact if_neg (fun h => hnf (Or.inr (Or.inl ⟨rfl, h⟩)))
  · refine ⟨['0', d0, d1, d2, d3, d4, '0', '0', '0', '0', '5'], ?_⟩
    show (if d4 = '0' then Except.error (ZErr.invalidData 273)
          else Except.ok ['0', d0, d1, d2, d3, d4, '0', '0', '0', '0', '5']) =
      Except.ok ['0', d0, d1, d2, d3, d4, '0', '0', '0', '0', '5']
    exact if_neg (fun h => hnf (Or.inr (Or.inr ⟨Or.inl rfl, h⟩)))
  · refine ⟨['0', d0, d1, d2, d3, d4, '0', '0', '0', '0', '6'], ?_⟩
    show (if d4 = '0' then Except.error (ZErr.invalidData 273)
          else Except.ok ['0', d0, d1, d2, d3, d4, '0', '0', '0', '0', '6']) =
      Except.ok ['0', d0, d1, d2, d3, d4, '0', '0', '0', '0', '6']
    exact if_neg (fun h => hnf (Or.inr (Or.inr ⟨Or.inr (Or.inl rfl), h⟩)))
  · refine ⟨['0', d0, d1, d2, d3, d4, '0', '0', '0', '0', '7'], ?_⟩
    show (if d4 = '0' then Except.error (ZErr.invalidData 273)
          else Except.ok ['0', d0, d1, d2, d3, d4, '0', '0', '0', '0', '7']) =
      Except.ok ['0', d0, d1, d2, d3, d4, '0', '0', '0', '0', '7']
    exact if_neg (fun h => hnf (Or.inr (Or.inr ⟨Or.inr (Or.inr (Or.inl rfl)), h⟩)))
  · refine ⟨['0', d0, d1, d2, d3, d4, '0', '0', '0', '0', '8'], ?_⟩
    show (if d4 = '0' then Except.error (ZErr.invalidData 273)
          else Except.ok ['0', d0, d1, d2, d3, d4, '0', '0', '0', '0', '8']) =
      Except.ok ['0', d0, d1, d2, d3, d4, '0', '0', '0', '0', '8']
    exact if_neg (fun h => hnf (Or.inr (Or.inr ⟨Or.inr (Or.inr (Or.inr (Or.inl rfl))), h⟩)))
  · refine ⟨['0', d0, d1, d2, d3, d4, '0', '0', '0', '0', '9'], ?_⟩
    show (if d4 = '0' then Except.error (ZErr.invalidData 273)
          else Except.ok ['0', d0, d1, d2, d3, d4, '0', '0', '0', '0', '9']) =
      Except.ok ['0', d0, d1, d2, d3, d4, '0', '0', '0', '0', '9']
    exact if_neg (fun h => hnf (Or.inr (Or.inr ⟨Or.inr (Or.inr (Or.inr (Or.inr rfl))), h⟩)))

theorem claim10_upce_leading_digit (s d0 d1 d2 d3 d4 d5 : Char)
    (hs : s ∈ digitChars) (hs0 : s ≠ '0') (hs1 : s ≠ '1')
    (h0 : d0 ∈ digitChars) (h1 : d1 ∈ digitChars) (h2 : d2 ∈ digitChars)
    (h3 : d3 ∈ digitChars) (h4 : d4 ∈ digitChars) (h5 : d5 ∈ digitChars)
    (hnf : ¬ upceForbidden d2 d3 d4 d5) :
    ∃ r7 r6,
      upce Symbology.UPCE (s :: [d0, d1, d2, d3, d4, d5]) [] = Except.ok r7 ∧
      upce Symbology.UPCE [d0, d1, d2, d3, d4, d5] [] = Except.ok r6 ∧
      r7.num_system = 0 ∧
      r7.equivalent = r6.equivalent ∧
      r7.dest = r6.dest ∧
      r7.text = s :: List.drop 1 r6.text ∧
      r7.text = s :: [d0, d1, d2, d3, d4, d5] ++ [upc_check r7.equivalent 11] := by
  obtain ⟨eqv, hE⟩ :=
    upce_expand_ok_of_not_forbidden ('0' :: [d0, d1, d2, d3, d4, d5]) d0 d1 d2 d3 d4 d5 h5 hnf
  have h7 : upce Symbology.UPCE (s :: [d0, d1, d2, d3, d4, d5]) [] =
      upce_tail Symbology.UPCE 0 (s :: [d0, d1, d2, d3, d4, d5]) [d0, d1, d2, d3, d4, d5] [] := by
    simp only [upce]
    simp [hs0, hs1]
  have h6 : upce Symbology.UPCE [d0, d1, d2, d3, d4, d5] [] =
      upce_tail Symbology.UPCE 0 ('0' :: [d0, d1, d2, d3, d4, d5]) [d0, d1, d2, d3, d4, d5] [] :=
    rfl
  rw [h7, h6]
  simp only [upce_tail]
  rw [show upce_expand 0 (s :: [d0, d1, d2, d3, d4, d5]) [d0, d1, d2, d3, d4, d5] =
        upce_expand 0 ('0' :: [d0, d1, d2, d3, d4, d5]) [d0, d1, d2, d3, d4, d5] from rfl]
  rw [hE]
  exact ⟨_, _, rfl, rfl, rfl, rfl, rfl, rfl, rfl⟩

theorem claim10_upce_leading_digit_witness :
    ∃ r7 r6,
      upce Symbology.UPCE ('5' :: ['1', '2', '3', '4', '5', '0']) [] = Except.ok r7 ∧
      upce Symbology.UPCE ['1', '2', '3', '4', '5', '0'] [] = Except.ok r6 ∧
      r7.num_system = 0 ∧
      r7.equivalent = r6.equivalent ∧
      r7.dest = r6.dest ∧
      r7.text = '5' :: List.drop 1 r6.text ∧
      r7.text = '5' :: ['1', '2', '3', '4', '5', '0'] ++ [upc_check r7.equivalent 11] :=
  claim10_upce_leading_digit '5' '1' '2' '3' '4' '5' '0' (by decide) (by decide)
    (by decide) (by decide) (by decide) (by decide) (by decide) (by decide)
    (by decide) (by decide)

/-- Claim C4: whenever the caller supplies an input already carrying a
    trailing check digit (12-digit UPC-A, 13-digit EAN-13, 8-digit EAN-8, and
    the UPC-E explicit check variant), the encoder recomputes the expected
    check digit and fails with an InvalidCheckDigit error on mismatch; on a
    match it keeps the text exactly as supplied, never substituting its own
    computed value, and on a mismatch it produces no symbol. -/
theorem claim4_supplied_check_digit :
    (∀ s : List Char, (∀ ch ∈ s, ch ∈ digitChars) → s.length = 12 →
      (s.getD 11 ' ' ≠ upc_check s 11 →
        upca s [] = Except.error (ZErr.invalidCheck 270)) ∧
      (s.getD 11 ' ' = upc_check s 11 →
        (upca s []).map Draw.text = Except.ok s)) ∧
    (∀ s : List Char, (∀ ch ∈ s, ch ∈ digitChars) → s.length = 13 →
      (s.getD 12 ' ' ≠ ean_check s 12 →
        ean13 s [] = Except.error (ZErr.invalidCheck 275)) ∧
      (s.getD 12 ' ' = ean_check s 12 →
        (ean13 s []).map Draw.text = Except.ok s)) ∧
    (∀ s : List Char, (∀ ch ∈ s, ch ∈ digitChars) → s.length = 8 →
      (s.getD 7 ' ' ≠ upc_check s 7 →
        ean8 s [] = Except.error (ZErr.invalidCheck 276)) ∧
      (s.getD 7 ' ' = upc_check s 7 →
        (ean8 s []).map Draw.text = Except.ok s)) ∧
    (∀ d0 d1 d2 d3 d4 d5 c : Char, d5 ∈ digitChars → ¬ upceForbidden d2 d3 d4 d5 →
      (c ≠ upc_check (upce_equivalent_of [d0, d1, d2, d3, d4, d5]) 11 →
        upce Symbology.UPCE_CHK [d0, d1, d2, d3, d4, d5, c] [] =
          Except.error (ZErr.invalidCheck 274)) ∧
      (c = upc_check (upce_equivalent_of [d0, d1, d2, d3, d4, d5]) 11 →
        (upce Symbology.UPCE_CHK [d0, d1, d2, d3, d4, d5, c] []).map UpceOut.text =
          Except.ok ('0' :: [d0, d1, d2, d3, d4, d5, c]))) := by
  refine ⟨?_, ?_, ?_, ?_⟩
  · intro s hd hl
    constructor
    · intro hne
      rw [List.getD_eq_getElem _ ' ' (by omega)] at hne
      simp [upca, hl, hne]
    · intro heq
      rw [List.getD_eq_getElem _ ' ' (by omega)] at heq
      simp [upca, hl, heq]
      rfl
  · intro s hd hl
    constructor
    · intro hne
      rw [List.getD_eq_getElem _ ' ' (by omega)] at hne
      simp [ean13, hl, hne]
    · intro heq
      rw [List.getD_eq_getElem _ ' ' (by omega)] at heq
      simp [ean13, hl, heq]
      rfl
  · intro s hd hl
    constructor
    · intro hne
      rw [List.getD_eq_getElem _ ' ' (by omega)] at hne
      simp [ean8, hl, hne]
    · intro heq
      rw [List.getD_eq_getElem _ ' ' (by omega)] at heq
      simp [ean8, hl, heq]
      rfl
  · intro d0 d1 d2 d3 d4 d5 c h5 hnf
    rcases digit_cases h5 with rfl | rfl | rfl | rfl | rfl | rfl | rfl | rfl | rfl | rfl
    · constructor
      · intro hne
        simp only [upce, upce_tail, upce_expand]
        simp
        intro h
        exact absurd h (by simpa [upce_equivalent_of, upce_expand] using hne)
      · intro heq
        have heq2 : c = upc_check ['0', d0, d1, '0', '0', '0', '0', '0', d2, d3, d4] 11 := by
          simpa [upce_equivalent_of, upce_expand] using heq
        simp only [upce, upce_tail, upce_expand]
        simp [heq2]
        rfl
    · constructor
      · intro hne
        simp only [upce, upce_tail, upce_expand]
        simp
        intro h
        exact absurd h (by simpa [upce_equivalent_of, upce_expand] using hne)
      · intro heq
        have heq2 : c = upc_check ['0', d0, d1, '1', '0', '0', '0', '0', d2, d3, d4] 11 := by
          simpa [upce_equivalent_of, upce_expand] using heq
        simp only [upce, upce_tail, upce_expand]
        simp [heq2]
        rfl
    · constructor
      · intro hne
        simp only [upce, upce_tail, upce_expand]
        simp
        intro h
        exact absurd h (by simpa [upce_equivalent_of, upce_expand] using hne)
      · intro heq
        have heq2 : c = upc_check ['0', d0, d1, '2', '0', '0', '0', '0', d2, d3, d4] 11 := by
          simpa [upce_equivalent_of, upce_expand] using heq
        simp only [upce, upce_tail, upce_expand]
        simp [heq2]
        rfl
    · constructor
      · intro hne
        have hno : ¬ (d2 = '0' ∨ d2 = '1' ∨ d2 = '2') := fun h => hnf (Or.inl ⟨rfl, h⟩)
        simp only [upce, upce_tail, upce_expand]
        simp [hno]
        intro h
        exact absurd h (by simpa [upce_equivalent_of, upce_expand, hno] using hne)
      · intro heq
        have hno : ¬ (d2 = '0' ∨ d2 = '1' ∨ d2 = '2') := fun h => hnf (Or.inl ⟨rfl, h⟩)
        have heq2 : c = upc_check ['0', d0, d1, d2, '0', '0', '0', '0', '0', d3, d4] 11 := by
          simpa [upce_equivalent_of, upce_expand, hno] using heq
        simp only [upce, upce_tail, upce_expand]
        simp [heq2, hno]
        rfl
    · constructor
      · intro hne
        have hno : ¬ d3 = '0' := fun h => hnf (Or.inr (Or.inl ⟨rfl, h⟩))
        simp only [upce, upce_tail, upce_expand]
        simp [hno]
        intro h
        exact absurd h (by simpa [upce_equivalent_of, upce_expand, hno] using hne)
      · intro heq
        have hno : ¬ d3 = '0' := fun h => hnf (Or.inr (Or.inl ⟨rfl, h⟩))
        have heq2 : c = upc_check ['0', d0, d1, d2, d3, '0', '0', '0', '0', '0', d4] 11 := by
          simpa [upce_equivalent_of, upce_expand, hno] using heq
        simp only [upce, upce_tail, upce_expand]
        simp [heq2, hno]
        rfl
    · constructor
      · intro hne
        have hno : ¬ d4 = '0' := fun h => hnf (Or.inr (Or.inr ⟨Or.inl rfl, h⟩))
        simp only [upce, upce_tail, upce_expand]
        simp [hno]
        intro h
        exact absurd h (by simpa [upce_equivalent_of, upce_expand, hno] using hne)
      · intro heq
        have hno : ¬ d4 = '0' := fun h => hnf (Or.inr (Or.inr ⟨Or.inl rfl, h⟩))
        have heq2 : c = upc_check ['0', d0, d1, d2, d3, d4, '0', '0', '0', '0', '5'] 11 := by
          simpa [upce_equivalent_of, upce_expand, hno] using heq
        simp only [upce, upce_tail, upce_expand]
        simp [heq2, hno]
        rfl
    · constructor
      · intro hne
        have hno : ¬ d4 = '0' := fun h => hnf (Or.inr (Or.inr ⟨Or.inr (Or.inl rfl), h⟩))
        simp only [upce, upce_tail, upce_expand]
        simp [hno]
        intro h
        exact absurd h (by simpa [upce_equivalent_of, upce_expand, hno] using hne)
      · intro heq
        have hno : ¬ d4 = '0' := fun h => hnf (Or.inr (Or.inr ⟨Or.inr (Or.inl rfl), h⟩))
        have heq2 : c = upc_check ['0', d0, d1, d2, d3, d4, '0', '0', '0', '0', '6'] 11 := by
          simpa [upce_equivalent_of, upce_expand, hno] using heq
        simp only [upce, upce_tail, upce_expand]
        simp [heq2, hno]
        rfl
    · constructor
      · intro hne
        have hno : ¬ d4 = '0' := fun h => hnf (Or.inr (Or.inr ⟨Or.inr (Or.inr (Or.inl rfl)), h⟩))
        simp only [upce, upce_tail, upce_expand]
        simp [hno]
        intro h
        exact absurd h (by simpa [upce_equivalent_of, upce_expand, hno] using hne)
      · intro heq
        have hno : ¬ d4 = '0' := fun h => hnf (Or.inr (Or.inr ⟨Or.inr (Or.inr (Or.inl rfl)), h⟩))
        have heq2 : c = upc_check ['0', d0, d1, d2, d3, d4, '0', '0', '0', '0', '7'] 11 := by
          simpa [upce_equivalent_of, upce_expand, hno] using heq
        simp only [upce, upce_tail, upce_expand]
        simp [heq2, hno]
        rfl
    · constructor
      · intro hne
        have hno : ¬ d4 = '0' := fun h => hnf (Or.inr (Or.inr ⟨Or.inr (Or.inr (Or.inr (Or.inl rfl))), h⟩))
        simp only [upce, upce_tail, upce_expand]
        simp [hno]
        intro h
        exact absurd h (by simpa [upce_equivalent_of, upce_expand, hno] using hne)
      · intro heq
        have hno : ¬ d4 = '0' := fun h => hnf (Or.inr (Or.inr ⟨Or.inr (Or.inr (Or.inr (Or.inl rfl))), h⟩))
        have heq2 : c = upc_check ['0', d0, d1, d2, d3, d4, '0', '0', '0', '0', '8'] 11 := by
          simpa [upce_equivalent_of, upce_expand, hno] using heq
        simp only [upce, upce_tail, upce_expand]
        simp [heq2, hno]
        rfl
    · constructor
      · intro hne
        have hno : ¬ d4 = '0' := fun h => hnf (Or.inr (Or.inr ⟨Or.inr (Or.inr (Or.inr (Or.inr rfl))), h⟩))
        simp only [upce, upce_tail, upce_expand]
        simp [hno]
        intro h
        exact absurd h (by simpa [upce_equivalent_of, upce_expand, hno] using hne)
      · intro heq
        have hno : ¬ d4 = '0' := fun h => hnf (Or.inr (Or.inr ⟨Or.inr (Or.inr (Or.inr (Or.inr rfl))), h⟩))
        have heq2 : c = upc_check ['0', d0, d1, d2, d3, d4, '0', '0', '0', '0', '9'] 11 := by
          simpa [upce_equivalent_of, upce_expand, hno] using heq
        simp only [upce, upce_tail, upce_expand]
        simp [heq2, hno]
        rfl

theorem claim4_supplied_check_digit_witness :
    upca ['0', '3', '6', '0', '0', '0', '2', '9', '1', '4', '5', '3'] [] =
      Except.error (ZErr.invalidCheck 270) ∧
    (ean13 ['9', '7', '8', '0', '1', '9', '5', '0', '1', '1', '0', '9', '8'] []).map Draw.text =
      Except.ok ['9', '7', '8', '0', '1', '9', '5', '0', '1', '1', '0', '9', '8'] ∧
    ean8 ['1', '2', '3', '4', '5', '6', '7', '9'] [] =
      Except.error (ZErr.invalidCheck 276) ∧
    (upce Symbology.UPCE_CHK ['1', '2', '3', '4', '5', '0', '5'] []).map UpceOut.text =
      Except.ok ['0', '1', '2', '3', '4', '5', '0', '5'] :=
  ⟨(claim4_supplied_check_digit.1 ['0', '3', '6', '0', '0', '0', '2', '9', '1', '4', '5', '3']
      (by decide) (by decide)).1 (by decide),
   (claim4_supplied_check_digit.2.1 ['9', '7', '8', '0', '1', '9', '5', '0', '1', '1', '0', '9', '8']
      (by decide) (by decide)).2 (by decide),
   (claim4_supplied_check_digit.2.2.1 ['1', '2', '3', '4', '5', '6', '7', '9']
      (by decide) (by decide)).1 (by decide),
   (claim4_supplied_check_digit.2.2.2 '1' '2' '3' '4' '5' '0' '5'
      (by decide) (by decide)).2 (by decide)⟩


/-- Claim C5 counterexample: the 2-digit add-on input 12 selects parity index
    (10 times 1 plus 2) mod 4 = 0, not 2, so the selected pattern is AA, not
    BA: both digits of the assembled add-on use representation set A, and the
    output differs from the one a BA pattern would give. -/
theorem claim5_counterexample :
    (10 * ctoi '1' + ctoi '2') % 4 = 0 ∧
    EAN2Parity.getD ((10 * ctoi '1' + ctoi '2') % 4) [] = ['A', 'A'] ∧
    add_on ['1', '2'] 2 [] 0 =
      ['1', '1', '2'] ++ EANsetA.getD 1 [] ++ ['1', '1'] ++ EANsetA.getD 2 [] ∧
    add_on ['1', '2'] 2 [] 0 ≠
      ['1', '1', '2'] ++ EANsetB.getD 1 [] ++ ['1', '1'] ++ EANsetA.getD 2 [] := by
  decide

/-- Claim C5 (amended): for every 2-digit add-on the selected parity pattern
    is the EAN2Parity entry at (10 d0 + d1) mod 4, and for every 5-digit
    add-on the EAN5Parity entry at (3 (d0 + d2 + d4) + 9 (d1 + d3)) mod 10;
    in particular the input 12 selects index (10 + 2) mod 4 = 0, giving
    pattern AA. -/
theorem claim5_addon_parity :
    (∀ d0 d1, d0 ∈ digitChars → d1 ∈ digitChars → ∀ dest gap,
      add_on [d0, d1] 2 dest gap =
        (if gap ≠ 0 then dest ++ [itoc gap] else dest) ++ ['1', '1', '2'] ++
        (if (EAN2Parity.getD ((10 * ctoi d0 + ctoi d1) % 4) []).getD 0 ' ' = 'A'
         then EANsetA.getD (ctoi d0) [] else EANsetB.getD (ctoi d0) []) ++ ['1', '1'] ++
        (if (EAN2Parity.getD ((10 * ctoi d0 + ctoi d1) % 4) []).getD 1 ' ' = 'A'
         then EANsetA.getD (ctoi d1) [] else EANsetB.getD (ctoi d1) [])) ∧
    (∀ d0 d1 d2 d3 d4, d0 ∈ digitChars → d1 ∈ digitChars → d2 ∈ digitChars →
      d3 ∈ digitChars → d4 ∈ digitChars → ∀ dest gap,
      add_on [d0, d1, d2, d3, d4] 5 dest gap =
        (if gap ≠ 0 then dest ++ [itoc gap] else dest) ++ ['1', '1', '2'] ++
        (if (EAN5Parity.getD
              ((3 * (ctoi d0 + ctoi d2 + ctoi d4) + 9 * (ctoi d1 + ctoi d3)) % 10) []).getD 0 ' ' = 'A'
         then EANsetA.getD (ctoi d0) [] else EANsetB.getD (ctoi d0) []) ++ ['1', '1'] ++
        (if (EAN5Parity.getD
              ((3 * (ctoi d0 + ctoi d2 + ctoi d4) + 9 * (ctoi d1 + ctoi d3)) % 10) []).getD 1 ' ' = 'A'
         then EANsetA.getD (ctoi d1) [] else EANsetB.getD (ctoi d1) []) ++ ['1', '1'] ++
        (if (EAN5Parity.getD
              ((3 * (ctoi d0 + ctoi d2 + ctoi d4) + 9 * (ctoi d1 + ctoi d3)) % 10) []).getD 2 ' ' = 'A'
         then EANsetA.getD (ctoi d2) [] else EANsetB.getD (ctoi d2) []) ++ ['1', '1'] ++
        (if (EAN5Parity.getD
              ((3 * (ctoi d0 + ctoi d2 + ctoi d4) + 9 * (ctoi d1 + ctoi d3)) % 10) []).getD 3 ' ' = 'A'
         then EANsetA.getD (ctoi d3) [] else EANsetB.getD (ctoi d3) []) ++ ['1', '1'] ++
        (if (EAN5Parity.getD
              ((3 * (ctoi d0 + ctoi d2 + ctoi d4) + 9 * (ctoi d1 + ctoi d3)) % 10) []).getD 4 ' ' = 'A'
         then EANsetA.getD (ctoi d4) [] else EANsetB.getD (ctoi d4) [])) ∧
    ((10 * ctoi '1' + ctoi '2') % 4 = 0 ∧ EAN2Parity.getD 0 [] = ['A', 'A']) := by
  refine ⟨?_, ?_, by decide⟩
  · intro d0 d1 h0 h1 dest gap
    have hlt : (10 * ctoi d0 + ctoi d1) % 4 < 4 := Nat.mod_lt _ (by omega)
    have h4 : (10 * ctoi d0 + ctoi d1) % 4 = 0 ∨ (10 * ctoi d0 + ctoi d1) % 4 = 1 ∨
        (10 * ctoi d0 + ctoi d1) % 4 = 2 ∨ (10 * ctoi d0 + ctoi d1) % 4 = 3 := by omega
    rcases h4 with hk | hk | hk | hk <;>
      simp [add_on, hk, EAN2Parity, show List.range 2 = [0, 1] from rfl,
        lookup_digit EANsetA h0, lookup_digit EANsetB h0,
        lookup_digit EANsetA h1, lookup_digit EANsetB h1, List.append_assoc]
  · intro d0 d1 d2 d3 d4 h0 h1 h2 h3 h4 dest gap
    have hlt : (3 * (ctoi d0 + ctoi d2 + ctoi d4) + 9 * (ctoi d1 + ctoi d3)) % 10 < 10 :=
      Nat.mod_lt _ (by omega)
    have h10 : (3 * (ctoi d0 + ctoi d2 + ctoi d4) + 9 * (ctoi d1 + ctoi d3)) % 10 = 0 ∨
        (3 * (ctoi d0 + ctoi d2 + ctoi d4) + 9 * (ctoi d1 + ctoi d3)) % 10 = 1 ∨
        (3 * (ctoi d0 + ctoi d2 + ctoi d4) + 9 * (ctoi d1 + ctoi d3)) % 10 = 2 ∨
        (3 * (ctoi d0 + ctoi d2 + ctoi d4) + 9 * (ctoi d1 + ctoi d3)) % 10 = 3 ∨
        (3 * (ctoi d0 + ctoi d2 + ctoi d4) + 9 * (ctoi d1 + ctoi d3)) % 10 = 4 ∨
        (3 * (ctoi d0 + ctoi d2 + ctoi d4) + 9 * (ctoi d1 + ctoi d3)) % 10 = 5 ∨
        (3 * (ctoi d0 + ctoi d2 + ctoi d4) + 9 * (ctoi d1 + ctoi d3)) % 10 = 6 ∨
        (3 * (ctoi d0 + ctoi d2 + ctoi d4) + 9 * (ctoi d1 + ctoi d3)) % 10 = 7 ∨
        (3 * (ctoi d0 + ctoi d2 + ctoi d4) + 9 * (ctoi d1 + ctoi d3)) % 10 = 8 ∨
        (3 * (ctoi d0 + ctoi d2 + ctoi d4) + 9 * (ctoi d1 + ctoi d3)) % 10 = 9 := by omega
    rcases h10 with hk | hk | hk | hk | hk | hk | hk | hk | hk | hk <;>
      simp [add_on, hk, EAN5Parity, show List.range 5 = [0, 1, 2, 3, 4] from rfl,
        lookup_digit EANsetA h0, lookup_digit EANsetB h0,
        lookup_digit EANsetA h1, lookup_digit EANsetB h1,
        lookup_digit EANsetA h2, lookup_digit EANsetB h2,
        lookup_digit EANsetA h3, lookup_digit EANsetB h3,
        lookup_digit EANsetA h4, lookup_digit EANsetB h4, List.append_assoc]

theorem claim5_addon_parity_witness :
    add_on ['1', '2'] 2 [] 0 =
      (if (0 : Nat) ≠ 0 then [] ++ [itoc 0] else ([] : List Char)) ++ ['1', '1', '2'] ++
      (if (EAN2Parity.getD ((10 * ctoi '1' + ctoi '2') % 4) []).getD 0 ' ' = 'A'
       then EANsetA.getD (ctoi '1') [] else EANsetB.getD (ctoi '1') []) ++ ['1', '1'] ++
      (if (EAN2Parity.getD ((10 * ctoi '1' + ctoi '2') % 4) []).getD 1 ' ' = 'A'
       then EANsetA.getD (ctoi '2') [] else EANsetB.getD (ctoi '2') []) :=
  claim5_addon_parity.1 '1' '2' (by decide) (by decide) [] 0

lemma digit_ne_plus {c : Char} (h : c ∈ digitChars) : c ≠ '+' := by
  rcases digit_cases h with rfl | rfl | rfl | rfl | rfl | rfl | rfl | rfl | rfl | rfl <;> decide

lemma is_sane_of_digits_or_plus (allowed : List Char) (s : List Char)
    (hsub : ∀ c ∈ digitChars, allowed.contains c = true)
    (hplus : allowed.contains '+' = true)
    (hd : ∀ c ∈ s, c ∈ digitChars ∨ c = '+') : is_sane allowed s = true := by
  induction s with
  | nil => rfl
  | cons c t ih =>
    have hc : allowed.contains c = true := by
      rcases hd c (by simp) with h | rfl
      · exact hsub c h
      · exact hplus
    have ht := ih (fun x hx => hd x (by simp [hx]))
    simp only [is_sane, List.all_cons, hc, Bool.true_and]
    simpa [is_sane] using ht

lemma elz_step_digits (t : List Char) (hd : ∀ c ∈ t, c ≠ '+') (a b : Nat) (w : Bool) :
    t.foldl
      (fun acc c =>
        if c = '+' then (acc.1, acc.2.1, true)
        else if acc.2.2 then (acc.1, acc.2.1 + 1, true)
        else (acc.1 + 1, acc.2.1, false)) (a, b, w) =
      (if w then (a, b + t.length, true) else (a + t.length, b, false)) := by
  induction t generalizing a b w with
  | nil => cases w <;> simp
  | cons c t ih =>
    have hc : c ≠ '+' := hd c (by simp)
    have ih2 := ih (fun x hx => hd x (by simp [hx]))
    cases w <;>
      simp only [List.foldl_cons, List.length_cons, if_neg hc, if_pos, if_neg,
        Bool.false_eq_true, not_false_eq_true, ih2] <;>
      simp <;> omega

lemma elz_counts_digits (s : List Char) (hd : ∀ c ∈ s, c ≠ '+') :
    elz_counts s = (s.length, 0, false) := by
  unfold elz_counts
  simpa using elz_step_digits s hd 0 0 false

lemma elz_counts_split (f s : List Char) (hf : ∀ c ∈ f, c ≠ '+') (hs : ∀ c ∈ s, c ≠ '+') :
    elz_counts (f ++ '+' :: s) = (f.length, s.length, true) := by
  unfold elz_counts
  rw [List.foldl_append, elz_step_digits f hf 0 0 false]
  simp only [if_neg, List.foldl_cons, if_pos rfl]
  rw [elz_step_digits s hs]
  simp

/-- Claim C7: every raw input longer than 19 characters fails with the length
    error 283 before any character set validation, normalization or table
    lookup (the characters are fully unconstrained); independently, a primary
    part longer than 13 characters or an add-on part longer than 5 characters
    is rejected with the length error 294. -/
theorem claim7_length_errors :
    (∀ (symb : Symbology) (opt : Int) (source : List Char), source.length > 19 →
      eanx (initSymbol symb opt) source = Except.error (ZErr.tooLong 283)) ∧
    (∀ (symb : Symbology) (opt : Int) (f s : List Char),
      (∀ c ∈ f, c ∈ digitChars) → (∀ c ∈ s, c ∈ digitChars) →
      f.length + 1 + s.length ≤ 19 → (f.length > 13 ∨ s.length > 5) →
      eanx (initSymbol symb opt) (f ++ '+' :: s) = Except.error (ZErr.tooLong 294)) ∧
    (∀ (symb : Symbology) (opt : Int) (f : List Char),
      (∀ c ∈ f, c ∈ digitChars) → f.length ≤ 19 → f.length > 13 →
      eanx (initSymbol symb opt) f = Except.error (ZErr.tooLong 294)) := by
  refine ⟨?_, ?_, ?_⟩
  · intro symb opt source h
    simp [eanx, h]
  · intro symb opt f s hf hs hlen hbig
    have hle : ¬ (f ++ '+' :: s).length > 19 := by
      simp only [List.length_append, List.length_cons]
      omega
    have hsane : is_sane SODIUM (f ++ '+' :: s) = true := by
      apply is_sane_of_digits_or_plus _ _ (by decide) (by decide)
      intro c hc
      rcases List.mem_append.mp hc with h | h
      · exact Or.inl (hf c h)
      · rcases List.mem_cons.mp h with rfl | h
        · exact Or.inr rfl
        · exact Or.inl (hs c h)
    have hsane2 : is_sane (digitChars ++ ['X', 'x', '+']) (f ++ '+' :: s) = true := by
      apply is_sane_of_digits_or_plus _ _ (by decide) (by decide)
      intro c hc
      rcases List.mem_append.mp hc with h | h
      · exact Or.inl (hf c h)
      · rcases List.mem_cons.mp h with rfl | h
        · exact Or.inr rfl
        · exact Or.inl (hs c h)
    have hcounts := elz_counts_split f s (fun c hc => digit_ne_plus (hf c hc))
      (fun c hc => digit_ne_plus (hs c hc))
    simp [eanx, ean_leading_zeroes, hcounts, hsane, hsane2, hle, hbig]
    omega
  · intro symb opt f hf hle13 hbig
    have hle : ¬ f.length > 19 := by omega
    have hsane : is_sane SODIUM f = true := by
      apply is_sane_of_digits_or_plus _ _ (by decide) (by decide)
      intro c hc
      exact Or.inl (hf c hc)
    have hsane2 : is_sane (digitChars ++ ['X', 'x', '+']) f = true := by
      apply is_sane_of_digits_or_plus _ _ (by decide) (by decide)
      intro c hc
      exact Or.inl (hf c hc)
    have hcounts := elz_counts_digits f (fun c hc => digit_ne_plus (hf c hc))
    simp [eanx, ean_leading_zeroes, hcounts, hsane, hsane2, hle, hbig]

theorem claim7_length_errors_witness :
    eanx (initSymbol Symbology.EANX 0)
      ['1', '2', '3', '4', '5', '6', '7', '8', '9', '0',
       '1', '2', '3', '4', '5', '6', '7', '8', '9', '0'] =
      Except.error (ZErr.tooLong 283) ∧
    eanx (initSymbol Symbology.EANX 0)
      (['1', '2', '3', '4', '5', '6', '7', '8', '9', '0', '1', '2', '3', '4'] ++
        '+' :: ['1', '2']) =
      Except.error (ZErr.tooLong 294) ∧
    eanx (initSymbol Symbology.UPCA 0)
      ['1', '2', '3', '4', '5', '6', '7', '8', '9', '0', '1', '2', '3', '4'] =
      Except.error (ZErr.tooLong 294) :=
  ⟨claim7_length_errors.1 Symbology.EANX 0 _ (by decide),
   claim7_length_errors.2.1 Symbology.EANX 0 _ _ (by decide) (by decide) (by decide)
     (by decide),
   claim7_length_errors.2.2 Symbology.UPCA 0 _ (by decide) (by decide) (by decide)⟩

lemma split_loop_latched (s : List Char) (hs : ∀ c ∈ s, c ≠ '+') :
    ∀ first second, split_loop s first second true = (first, second ++ s) := by
  induction s with
  | nil => intro first second; simp [split_loop]
  | cons c t ih =>
    intro first second
    have hc : c ≠ '+' := hs c (by simp)
    have ih2 := ih (fun x hx => hs x (by simp [hx]))
    simp [split_loop, hc, ih2]

lemma split_loop_first (f : List Char) (hf : ∀ c ∈ f, c ≠ '+') :
    ∀ (rest first second : List Char),
      split_loop (f ++ rest) first second false = split_loop rest (first ++ f) second false := by
  induction f with
  | nil => intro rest first second; simp
  | cons c t ih =>
    intro rest first second
    have hc : c ≠ '+' := hf c (by simp)
    have ih2 := ih (fun x hx => hf x (by simp [hx]))
    simp [split_loop, hc, ih2]

lemma split_loop_split (f s : List Char) (hf : ∀ c ∈ f, c ≠ '+') (hs : ∀ c ∈ s, c ≠ '+') :
    split_loop (f ++ '+' :: s) [] [] false = (f, s) := by
  rw [split_loop_first f hf ('+' :: s) [] []]
  simp [split_loop, split_loop_latched s hs]

lemma add_on_gap_shift (src : List Char) (len : Nat) (dest : List Char) (gap : Nat)
    (h : gap ≠ 0) : add_on src len dest gap = add_on src len (dest ++ [itoc gap]) 0 := by
  simp [add_on, h]

/-- Claim C9: with an add-on present, an out of range add-on gap override in
    option_2 never causes an error: the gap used is option_2 when it lies in
    9..12 for the UPC-A class (9 otherwise) and option_2 when it lies in 7..12
    for the other symbologies (7 otherwise), and the value is emitted as one
    gap character right before the start guard of the add-on. -/
theorem claim9_addon_gap :
    (∀ (opt : Int) (a : List Char), (∀ c ∈ a, c ∈ digitChars) → a.length = 11 →
      ∀ e0 e1, e0 ∈ digitChars → e1 ∈ digitChars →
      (eanx (initSymbol Symbology.UPCA opt) (a ++ '+' :: [e0, e1])).map Prod.snd =
        Except.ok (add_on [e0, e1] 2
          (upca_draw (a ++ [upc_check a 11]) 12 [] ++
            [itoc (if 9 ≤ opt ∧ opt ≤ 12 then opt.toNat else 9)]) 0)) ∧
    (∀ (opt : Int) (a : List Char), (∀ c ∈ a, c ∈ digitChars) → a.length = 7 →
      ∀ e0 e1, e0 ∈ digitChars → e1 ∈ digitChars →
      (eanx (initSymbol Symbology.EANX opt) (a ++ '+' :: [e0, e1])).map Prod.snd =
        Except.ok (add_on [e0, e1] 2
          (upca_draw (a ++ [upc_check a 7]) 8 [] ++
            [itoc (if 7 ≤ opt ∧ opt ≤ 12 then opt.toNat else 7)]) 0)) := by
  constructor
  · intro opt a hd hl e0 e1 h0 h1
    have ha_ne : ∀ c ∈ a, c ≠ '+' := fun c hc => digit_ne_plus (hd c hc)
    have hs_ne : ∀ c ∈ [e0, e1], c ≠ '+' := by
      intro c hc
      rcases List.mem_cons.mp hc with rfl | hc2
      · exact digit_ne_plus h0
      · rcases List.mem_cons.mp hc2 with rfl | hc3
        · exact digit_ne_plus h1
        · exact absurd hc3 (List.not_mem_nil c)
    have hcounts := elz_counts_split a [e0, e1] ha_ne hs_ne
    have hsplit := split_loop_split a [e0, e1] ha_ne hs_ne
    have hsane : is_sane SODIUM (a ++ '+' :: [e0, e1]) = true := by
      apply is_sane_of_digits_or_plus _ _ (by decide) (by decide)
      intro c hc
      rcases List.mem_append.mp hc with h | h
      · exact Or.inl (hd c h)
      · rcases List.mem_cons.mp h with rfl | h2
        · exact Or.inr rfl
        · rcases List.mem_cons.mp h2 with rfl | h3
          · exact Or.inl h0
          · rcases List.mem_cons.mp h3 with rfl | h4
            · exact Or.inl h1
            · exact absurd h4 (List.not_mem_nil c)
    have h19 : ¬ (a ++ '+' :: [e0, e1]).length > 19 := by
      simp only [List.length_append, List.length_cons, List.length_nil]
      omega
    have hfirst : (a ++ '+' :: [e0, e1]).take 11 = a := by
      rw [← hl]
      exact List.take_left a ('+' :: [e0, e1])
    have hsecond : (a ++ '+' :: [e0, e1]).drop 12 = [e0, e1] := by
      have h12 : a.length + 1 = 12 := by omega
      rw [← h12]
      exact List.drop_append 1
    by_cases hP : 9 ≤ opt ∧ opt ≤ 12
    · have hgap : opt.toNat ≠ 0 := by omega
      simp [eanx, ean_leading_zeroes, initSymbol, hcounts, hsane, h19, hl, hfirst,
        hsecond, hsplit, upca, expand, add_on_gap_shift [e0, e1] 2 _ _ hgap, hP]
      rfl
    · simp [eanx, ean_leading_zeroes, initSymbol, hcounts, hsane, h19, hl, hfirst,
        hsecond, hsplit, upca, expand, add_on_gap_shift [e0, e1] 2 _ 9 (by decide), hP]
      rfl
  · intro opt a hd hl e0 e1 h0 h1
    have ha_ne : ∀ c ∈ a, c ≠ '+' := fun c hc => digit_ne_plus (hd c hc)
    have hs_ne : ∀ c ∈ [e0, e1], c ≠ '+' := by
      intro c hc
      rcases List.mem_cons.mp hc with rfl | hc2
      · exact digit_ne_plus h0
      · rcases List.mem_cons.mp hc2 with rfl | hc3
        · exact digit_ne_plus h1
        · exact absurd hc3 (List.not_mem_nil c)
    have hcounts := elz_counts_split a [e0, e1] ha_ne hs_ne
    have hsplit := split_loop_split a [e0, e1] ha_ne hs_ne
    have hsane : is_sane SODIUM (a ++ '+' :: [e0, e1]) = true := by
      apply is_sane_of_digits_or_plus _ _ (by decide) (by decide)
      intro c hc
      rcases List.mem_append.mp hc with h | h
      · exact Or.inl (hd c h)
      · rcases List.mem_cons.mp h with rfl | h2
        · exact Or.inr rfl
        · rcases List.mem_cons.mp h2 with rfl | h3
          · exact Or.inl h0
          · rcases List.mem_cons.mp h3 with rfl | h4
            · exact Or.inl h1
            · exact absurd h4 (List.not_mem_nil c)
    have h19 : ¬ (a ++ '+' :: [e0, e1]).length > 19 := by
      simp only [List.length_append, List.length_cons, List.length_nil]
      omega
    have hfirst : (a ++ '+' :: [e0, e1]).take 7 = a := by
      rw [← hl]
      exact List.take_left a ('+' :: [e0, e1])
    have hsecond : (a ++ '+' :: [e0, e1]).drop 8 = [e0, e1] := by
      have h8 : a.length + 1 = 8 := by omega
      rw [← h8]
      exact List.drop_append 1
    by_cases hP : 7 ≤ opt ∧ opt ≤ 12
    · have hgap : opt.toNat ≠ 0 := by omega
      simp [eanx, ean_leading_zeroes, initSymbol, hcounts, hsane, h19, hl, hfirst,
        hsecond, hsplit, ean8, expand, add_on_gap_shift [e0, e1] 2 _ _ hgap, hP]
      rfl
    · simp [eanx, ean_leading_zeroes, initSymbol, hcounts, hsane, h19, hl, hfirst,
        hsecond, hsplit, ean8, expand, add_on_gap_shift [e0, e1] 2 _ 7 (by decide), hP]
      rfl

theorem claim9_addon_gap_witness :
    (eanx (initSymbol Symbology.UPCA 20)
        (['2', '4', '6', '9', '8', '7', '6', '5', '4', '3', '2'] ++ '+' :: ['1', '2'])).map
        Prod.snd =
      Except.ok (add_on ['1', '2'] 2
        (upca_draw (['2', '4', '6', '9', '8', '7', '6', '5', '4', '3', '2'] ++
          [upc_check ['2', '4', '6', '9', '8', '7', '6', '5', '4', '3', '2'] 11]) 12 [] ++
          [itoc (if 9 ≤ (20 : Int) ∧ (20 : Int) ≤ 12 then (20 : Int).toNat else 9)]) 0) :=
  claim9_addon_gap.1 20 ['2', '4', '6', '9', '8', '7', '6', '5', '4', '3', '2']
    (by decide) (by decide) '1' '2' (by decide) (by decide)

lemma shiftLoop_spec (m : Nat → Bool) : ∀ (n c : Nat),
    shiftLoop m n c = if 1 ≤ c ∧ c ≤ n then m (c - 1) else m c := by
  intro n
  induction n generalizing m with
  | zero =>
    intro c
    rw [shiftLoop, if_neg (by omega)]
  | succ k ih =>
    intro c
    rw [shiftLoop, ih]
    by_cases h1 : 1 ≤ c ∧ c ≤ k
    · rw [if_pos h1, if_pos (by omega)]
      simp only [shiftStep]
      rw [if_neg (by omega)]
    · rw [if_neg h1]
      by_cases h2 : c = k + 1
      · subst h2
        simp only [shiftStep]
        rw [if_pos trivial, if_pos (by omega)]
      · simp only [shiftStep]
        rw [if_neg h2, if_neg (by omega)]

lemma rasterRow_ge : ∀ (data : List Char) (b : Bool) (p : Nat),
    moduleCount data ≤ p → rasterRow data b p = false := by
  intro data
  induction data with
  | nil => intro b p h; rfl
  | cons c t ih =>
    intro b p h
    have hc : moduleCount (c :: t) = ctoi c + moduleCount t := by
      simp [moduleCount]
    rw [rasterRow, if_neg (by omega)]
    exact ih (!b) (p - ctoi c) (by omega)

lemma widthCap (n : Nat) : (if n > 0 then n else 0) = n := by
  split <;> omega

/-- Claim C8 counterexample: on the EAN-13-composite encode of a 12 digit
    primary, the middle reserved row carries its separator modules at columns
    0 and 96, not at columns 1 and 95 as claimed: column 1 of that row is
    clear while column 0 is set. -/
theorem claim8_counterexample :
    (eanx (initSymbol Symbology.EANX_CC 0)
      ['1', '2', '3', '4', '5', '6', '7', '8', '9', '0', '1', '2']).isOk = true ∧
    (eanxSymbol (initSymbol Symbology.EANX_CC 0)
      ['1', '2', '3', '4', '5', '6', '7', '8', '9', '0', '1', '2']).modules 1 1 = false ∧
    (eanxSymbol (initSymbol Symbology.EANX_CC 0)
      ['1', '2', '3', '4', '5', '6', '7', '8', '9', '0', '1', '2']).modules 1 0 = true ∧
    (eanxSymbol (initSymbol Symbology.EANX_CC 0)
      ['1', '2', '3', '4', '5', '6', '7', '8', '9', '0', '1', '2']).modules 1 96 = true := by
  decide

set_option maxHeartbeats 40000000

/-- Claim C8 (amended): for every EAN-13 composite linked request with a valid
    primary part of length 12 or 13, the encoder reserves exactly 3 extra rows
    above the linear symbol, sets two separator modules in the first and third
    reserved rows at columns 1 and 95 and in the middle reserved row at
    columns 0 and 96, marks each reserved row height as 2, and after the
    bitmap is produced shifts every module of the final row right by exactly
    one column, clears column 0 and widens the symbol by two. -/
theorem claim8_composite_rows (opt : Int) (src : List Char)
    (hd : ∀ c ∈ src, c ∈ digitChars)
    (hv : src.length = 12 ∨ (src.length = 13 ∧ src.getD 12 ' ' = ean_check src 12)) :
    (eanx (initSymbol Symbology.EANX_CC opt) src).isOk = true ∧
    (eanx (initSymbol Symbology.EANX opt) src).isOk = true ∧
    (eanxSymbol (initSymbol Symbology.EANX opt) src).rows = 1 ∧
    (eanxSymbol (initSymbol Symbology.EANX_CC opt) src).rows =
      (eanxSymbol (initSymbol Symbology.EANX opt) src).rows + 3 ∧
    (∀ c, (eanxSymbol (initSymbol Symbology.EANX_CC opt) src).modules 0 c = true ↔
      (c = 1 ∨ c = 95)) ∧
    (∀ c, (eanxSymbol (initSymbol Symbology.EANX_CC opt) src).modules 1 c = true ↔
      (c = 0 ∨ c = 96)) ∧
    (∀ c, (eanxSymbol (initSymbol Symbology.EANX_CC opt) src).modules 2 c = true ↔
      (c = 1 ∨ c = 95)) ∧
    (eanxSymbol (initSymbol Symbology.EANX_CC opt) src).row_height 0 = 2 ∧
    (eanxSymbol (initSymbol Symbology.EANX_CC opt) src).row_height 1 = 2 ∧
    (eanxSymbol (initSymbol Symbology.EANX_CC opt) src).row_height 2 = 2 ∧
    (eanxSymbol (initSymbol Symbology.EANX_CC opt) src).modules 3 0 = false ∧
    (∀ i, (eanxSymbol (initSymbol Symbology.EANX_CC opt) src).modules 3 (i + 1) =
      (eanxSymbol (initSymbol Symbology.EANX opt) src).modules 0 i) ∧
    (eanxSymbol (initSymbol Symbology.EANX_CC opt) src).width =
      (eanxSymbol (initSymbol Symbology.EANX opt) src).width + 2 := by
  have hne : ∀ c ∈ src, c ≠ '+' := fun c hc => digit_ne_plus (hd c hc)
  have hcounts := elz_counts_digits src hne
  have hsane : is_sane SODIUM src = true := by
    apply is_sane_of_digits_or_plus _ _ (by decide) (by decide)
    intro c hc
    exact Or.inl (hd c hc)
  rcases hv with hl | ⟨hl, hchk⟩
  · have h19 : ¬ src.length > 19 := by omega
    refine ⟨?_, ?_, ?_, ?_, ?_, ?_, ?_, ?_, ?_, ?_, ?_, ?_, ?_⟩
    · simp [eanxSymbol, eanx, ean_leading_zeroes, initSymbol, hcounts, hsane, h19, hl, ean13,
        expand, cc_shift, set_module, set_row_height, Except.isOk, Except.toBool]
    · simp [eanxSymbol, eanx, ean_leading_zeroes, initSymbol, hcounts, hsane, h19, hl, ean13,
        expand, cc_shift, set_module, set_row_height, Except.isOk, Except.toBool]
    · simp [eanxSymbol, eanx, ean_leading_zeroes, initSymbol, hcounts, hsane, h19, hl, ean13,
        expand, cc_shift, set_module, set_row_height]
    · simp [eanxSymbol, eanx, ean_leading_zeroes, initSymbol, hcounts, hsane, h19, hl, ean13,
        expand, cc_shift, set_module, set_row_height]
    · intro c
      simp [eanxSymbol, eanx, ean_leading_zeroes, initSymbol, hcounts, hsane, h19, hl, ean13,
        expand, cc_shift, set_module, set_row_height]
      by_cases hca : c = 1
      · simp [hca]
      · by_cases hcb : c = 95 <;> simp [hca, hcb]
    · intro c
      simp [eanxSymbol, eanx, ean_leading_zeroes, initSymbol, hcounts, hsane, h19, hl, ean13,
        expand, cc_shift, set_module, set_row_height]
      by_cases hca : c = 0
      · simp [hca]
      · by_cases hcb : c = 96 <;> simp [hca, hcb]
    · intro c
      simp [eanxSymbol, eanx, ean_leading_zeroes, initSymbol, hcounts, hsane, h19, hl, ean13,
        expand, cc_shift, set_module, set_row_height]
      by_cases hca : c = 1
      · simp [hca]
      · by_cases hcb : c = 95 <;> simp [hca, hcb]
    · simp [eanxSymbol, eanx, ean_leading_zeroes, initSymbol, hcounts, hsane, h19, hl, ean13,
        expand, cc_shift, set_module, set_row_height]
    · simp [eanxSymbol, eanx, ean_leading_zeroes, initSymbol, hcounts, hsane, h19, hl, ean13,
        expand, cc_shift, set_module, set_row_height]
    · simp [eanxSymbol, eanx, ean_leading_zeroes, initSymbol, hcounts, hsane, h19, hl, ean13,
        expand, cc_shift, set_module, set_row_height]
    · simp [eanxSymbol, eanx, ean_leading_zeroes, initSymbol, hcounts, hsane, h19, hl, ean13,
        expand, cc_shift, set_module, set_row_height]
    · intro i
      simp [eanxSymbol, eanx, ean_leading_zeroes, initSymbol, hcounts, hsane, h19, hl, ean13,
        expand, cc_shift, set_module, set_row_height, shiftLoop_spec, widthCap]
      intro hgt
      rw [rasterRow_ge _ _ _ (by omega), rasterRow_ge _ _ _ (by omega)]
    · simp [eanxSymbol, eanx, ean_leading_zeroes, initSymbol, hcounts, hsane, h19, hl, ean13,
        expand, cc_shift, set_module, set_row_height, widthCap]
  · have h19 : ¬ src.length > 19 := by omega
    rw [List.getD_eq_getElem _ ' ' (by omega)] at hchk
    have htake : List.take 13 src = src := by
      rw [← hl]
      exact List.take_length src
    refine ⟨?_, ?_, ?_, ?_, ?_, ?_, ?_, ?_, ?_, ?_, ?_, ?_, ?_⟩
    · simp [eanxSymbol, eanx, ean_leading_zeroes, initSymbol, hcounts, hsane, h19, hl, ean13,
        expand, cc_shift, set_module, set_row_height, hchk, htake, Except.isOk, Except.toBool]
    · simp [eanxSymbol, eanx, ean_leading_zeroes, initSymbol, hcounts, hsane, h19, hl, ean13,
        expand, cc_shift, set_module, set_row_height, hchk, htake, Except.isOk, Except.toBool]
    · simp [eanxSymbol, eanx, ean_leading_zeroes, initSymbol, hcounts, hsane, h19, hl, ean13,
        expand, cc_shift, set_module, set_row_height, hchk, htake]
    · simp [eanxSymbol, eanx, ean_leading_zeroes, initSymbol, hcounts, hsane, h19, hl, ean13,
        expand, cc_shift, set_module, set_row_height, hchk, htake]
    · intro c
      simp [eanxSymbol, eanx, ean_leading_zeroes, initSymbol, hcounts, hsane, h19, hl, ean13,
        expand, cc_shift, set_module, set_row_height, hchk, htake]
      by_cases hca : c = 1
      · simp [hca]
      · by_cases hcb : c = 95 <;> simp [hca, hcb]
    · intro c
      simp [eanxSymbol, eanx, ean_leading_zeroes, initSymbol, hcounts, hsane, h19, hl, ean13,
        expand, cc_shift, set_module, set_row_height, hchk, htake]
      by_cases hca : c = 0
      · simp [hca]
      · by_cases hcb : c = 96 <;> simp [hca, hcb]
    · intro c
      simp [eanxSymbol, eanx, ean_leading_zeroes, initSymbol, hcounts, hsane, h19, hl, ean13,
        expand, cc_shift, set_module, set_row_height, hchk, htake]
      by_cases hca : c = 1
      · simp [hca]
      · by_cases hcb : c = 95 <;> simp [hca, hcb]
    · simp [eanxSymbol, eanx, ean_leading_zeroes, initSymbol, hcounts, hsane, h19, hl, ean13,
        expand, cc_shift, set_module, set_row_height, hchk, htake]
    · simp [eanxSymbol, eanx, ean_leading_zeroes, initSymbol, hcounts, hsane, h19, hl, ean13,
        expand, cc_shift, set_module, set_row_height, hchk, htake]
    · simp [eanxSymbol, eanx, ean_leading_zeroes, initSymbol, hcounts, hsane, h19, hl, ean13,
        expand, cc_shift, set_module, set_row_height, hchk, htake]
    · simp [eanxSymbol, eanx, ean_leading_zeroes, initSymbol, hcounts, hsane, h19, hl, ean13,
        expand, cc_shift, set_module, set_row_height, hchk, htake]
    · intro i
      simp [eanxSymbol, eanx, ean_leading_zeroes, initSymbol, hcounts, hsane, h19, hl, ean13,
        expand, cc_shift, set_module, set_row_height, hchk, htake, shiftLoop_spec, widthCap]
      intro hgt
      rw [rasterRow_ge _ _ _ (by omega), rasterRow_ge _ _ _ (by omega)]
    · simp [eanxSymbol, eanx, ean_leading_zeroes, initSymbol, hcounts, hsane, h19, hl, ean13,
        expand, cc_shift, set_module, set_row_height, hchk, htake, widthCap]

theorem claim8_composite_rows_witness :
    (eanx (initSymbol Symbology.EANX_CC 0)
      ['1', '2', '3', '4', '5', '6', '7', '8', '9', '0', '1', '2']).isOk = true ∧
    (eanx (initSymbol Symbology.EANX 0)
      ['1', '2', '3', '4', '5', '6', '7', '8', '9', '0', '1', '2']).isOk = true ∧
    (eanxSymbol (initSymbol Symbology.EANX 0)
      ['1', '2', '3', '4', '5', '6', '7', '8', '9', '0', '1', '2']).rows = 1 ∧
    (eanxSymbol (initSymbol Symbology.EANX_CC 0)
      ['1', '2', '3', '4', '5', '6', '7', '8', '9', '0', '1', '2']).rows =
      (eanxSymbol (initSymbol Symbology.EANX 0)
        ['1', '2', '3', '4', '5', '6', '7', '8', '9', '0', '1', '2']).rows + 3 ∧
    (∀ c, (eanxSymbol (initSymbol Symbology.EANX_CC 0)
      ['1', '2', '3', '4', '5', '6', '7', '8', '9', '0', '1', '2']).modules 0 c = true ↔
      (c = 1 ∨ c = 95)) ∧
    (∀ c, (eanxSymbol (initSymbol Symbology.EANX_CC 0)
      ['1', '2', '3', '4', '5', '6', '7', '8', '9', '0', '1', '2']).modules 1 c = true ↔
      (c = 0 ∨ c = 96)) ∧
    (∀ c, (eanxSymbol (initSymbol Symbology.EANX_CC 0)
      ['1', '2', '3', '4', '5', '6', '7', '8', '9', '0', '1', '2']).modules 2 c = true ↔
      (c = 1 ∨ c = 95)) ∧
    (eanxSymbol (initSymbol Symbology.EANX_CC 0)
      ['1', '2', '3', '4', '5', '6', '7', '8', '9', '0', '1', '2']).row_height 0 = 2 ∧
    (eanxSymbol (initSymbol Symbology.EANX_CC 0)
      ['1', '2', '3', '4', '5', '6', '7', '8', '9', '0', '1', '2']).row_height 1 = 2 ∧
    (eanxSymbol (initSymbol Symbology.EANX_CC 0)
      ['1', '2', '3', '4', '5', '6', '7', '8', '9', '0', '1', '2']).row_height 2 = 2 ∧
    (eanxSymbol (initSymbol Symbology.EANX_CC 0)
      ['1', '2', '3', '4', '5', '6', '7', '8', '9', '0', '1', '2']).modules 3 0 = false ∧
    (∀ i, (eanxSymbol (initSymbol Symbology.EANX_CC 0)
      ['1', '2', '3', '4', '5', '6', '7', '8', '9', '0', '1', '2']).modules 3 (i + 1) =
      (eanxSymbol (initSymbol Symbology.EANX 0)
        ['1', '2', '3', '4', '5', '6', '7', '8', '9', '0', '1', '2']).modules 0 i) ∧
    (eanxSymbol (initSymbol Symbology.EANX_CC 0)
      ['1', '2', '3', '4', '5', '6', '7', '8', '9', '0', '1', '2']).width =
      (eanxSymbol (initSymbol Symbology.EANX 0)
        ['1', '2', '3', '4', '5', '6', '7', '8', '9', '0', '1', '2']).width + 2 :=
  claim8_composite_rows 0 ['1', '2', '3', '4', '5', '6', '7', '8', '9', '0', '1', '2']
    (by decide) (Or.inl (by decide))

end Zint
